import Mathlib

/-!
Verification of the DFU bootloader core of the had2019-playground repository.

The development shallowly embeds two source files:
  * `fw/usb_dfu.c` — the DFU protocol machine, its double-buffered ingress
    pipeline, and the cooperative flash-writer task `_dfu_tick`;
  * `fw/spi.c` — the SPI transport, in particular the write-then-verify
    transfer `spi_xfer_verify` and the flash driver wrapper `flash_verify`.

Machine integers are embedded as `Nat` with explicit truncation (`u8`, `u32`)
at each place the C source performs 8- or 32-bit arithmetic.  Hardware
responses (the SPI bus read-back bytes, the flash status register, the result
of a verify pass) are environment parameters of the embedded functions.
-/

namespace HadDfu

/-- Truncation to 8 bits, as a C cast to `uint8_t`. -/
def u8 (n : Nat) : Nat := n % 256

/-- Truncation to 32 bits, as C `uint32_t` arithmetic. -/
def u32 (n : Nat) : Nat := n % 4294967296

/-- C `uint32_t` subtraction `a - b` (wrapping), for stored values
`b < 2^32`. -/
def u32sub (a b : Nat) : Nat := (a + 4294967296 - b) % 4294967296

theorem u8_lt (n : Nat) : u8 n < 256 := Nat.mod_lt _ (by omega)

theorem u32_eq_of_lt {n : Nat} (h : n < 4294967296) : u32 n = n := Nat.mod_eq_of_lt h

/-! ### SPI transport (`fw/spi.c`)

A transfer is described by a list of chunks (`struct spi_xfer_chunk`): a byte
buffer plus `read` / `write` flags.  The bytes the flash puts on the bus are
an environment parameter `bus : Nat → Nat`, indexed by the position of the
byte within the whole transfer (every chunk byte clocks the bus, read or not).
-/

/-- One `struct spi_xfer_chunk`: buffer contents plus direction flags.
`data` holds the caller's buffer bytes (`uint8_t` values). -/
structure spi_xfer_chunk where
  data : List Nat
  read : Bool
  write : Bool
  deriving DecidableEq

/-- Accumulator state of `spi_xfer_verify`: the three `should_*` locals. -/
structure VerifyAcc where
  should_e : Nat
  should_w : Nat
  should_ew : Nat
  deriving DecidableEq

/-- One read-back byte of `spi_xfer_verify`: `e` is the expected byte
(`xfer->data[i]`), `a` the byte the bus returned (cast to `uint8_t`). -/
def verifyByte (acc : VerifyAcc) (e a : Nat) : VerifyAcc :=
  { should_e := acc.should_e ||| (if (e &&& u8 a) ≠ e then 1 else 0)
    should_w := acc.should_w ||| (if e ≠ u8 a then 2 else 0)
    should_ew := acc.should_ew ||| (if e ≠ 0xFF then 3 else 1) }

/-- Run the inner byte loop of `spi_xfer_verify` over one read chunk.
Returns the updated accumulator and the next bus position. -/
def verifyChunkBytes (bus : Nat → Nat) : Nat → List Nat → VerifyAcc → VerifyAcc × Nat
  | pos, [], acc => (acc, pos)
  | pos, e :: rest, acc => verifyChunkBytes bus (pos + 1) rest (verifyByte acc e (bus pos))

/-- Run the chunk loop of `spi_xfer_verify`.  Bytes of chunks with
`read = false` clock the bus but do not touch the accumulator. -/
def verifyChunks (bus : Nat → Nat) : Nat → List spi_xfer_chunk → VerifyAcc → VerifyAcc
  | _, [], acc => acc
  | pos, c :: rest, acc =>
    if c.read then
      let r := verifyChunkBytes bus pos c.data acc
      verifyChunks bus r.2 rest r.1
    else
      verifyChunks bus (pos + c.data.length) rest acc

/-- `spi_xfer_verify` from `fw/spi.c`: runs the chunks, then returns
`should_ew` when the erase bit accumulated, else `should_w`.
The chip select `cs` only gates the CS line, which is not modelled. -/
def spi_xfer_verify (cs : Nat) (chunks : List spi_xfer_chunk) (bus : Nat → Nat) : Nat :=
  let acc := verifyChunks bus 0 chunks ⟨0, 0, 0⟩
  if acc.should_e ≠ 0 then acc.should_ew else acc.should_w

/-- Chip-select line of the flash chip (`SPI_CS_FLASH` from the board
configuration header, which is not under `src/`; its numeric value is
irrelevant to the transfer result). -/
def SPI_CS_FLASH : Nat := 0

/-- `FLASH_CMD_READ_DATA` opcode. -/
def FLASH_CMD_READ_DATA : Nat := 0x03

/-- `flash_verify` from `fw/spi.c`: a read command chunk (opcode plus 24-bit
big-endian address) followed by a verify-read chunk over `src`. -/
def flash_verify (src : List Nat) (addr : Nat) (bus : Nat → Nat) : Nat :=
  spi_xfer_verify SPI_CS_FLASH
    [ ⟨[FLASH_CMD_READ_DATA, (addr >>> 16) &&& 0xff, (addr >>> 8) &&& 0xff, addr &&& 0xff],
        false, true⟩,
      ⟨src, true, false⟩ ] bus

/-! Shape lemmas for the verify accumulator. -/

/-- Well-formed accumulator values: each `should_*` stays within the bit
pattern its updates can produce. -/
def accWF (acc : VerifyAcc) : Prop :=
  (acc.should_e = 0 ∨ acc.should_e = 1) ∧
  (acc.should_w = 0 ∨ acc.should_w = 2) ∧
  (acc.should_ew = 0 ∨ acc.should_ew = 1 ∨ acc.should_ew = 3)

/-! ### DFU machine data model (`fw/usb_dfu.c`)

The global aggregate `g_dfu` together with the two file/function statics of
`usb_dfu.c` (`prog_retry` and the `should` local of `_dfu_tick`, which is
declared `static` and so persists across invocations).  Buffer contents are
not modelled; only the occupancy bookkeeping (`used`, `wr`, `rd`) is. -/

/-- `enum dfu_state` in declaration order (DFU 1.1; the order is fixed by the
comments indexing `dfu_valid_req`). -/
inductive DState where
  | appIDLE | appDETACH | dfuIDLE | dfuDNLOAD_SYNC | dfuDNBUSY | dfuDNLOAD_IDLE
  | dfuMANIFEST_SYNC | dfuMANIFEST | dfuMANIFEST_WAIT_RESET | dfuUPLOAD_IDLE | dfuERROR
  deriving DecidableEq

/-- Numeric value of a `enum dfu_state` member (declaration order from 0). -/
def DState.code : DState → Nat
  | .appIDLE => 0 | .appDETACH => 1 | .dfuIDLE => 2 | .dfuDNLOAD_SYNC => 3
  | .dfuDNBUSY => 4 | .dfuDNLOAD_IDLE => 5 | .dfuMANIFEST_SYNC => 6
  | .dfuMANIFEST => 7 | .dfuMANIFEST_WAIT_RESET => 8 | .dfuUPLOAD_IDLE => 9
  | .dfuERROR => 10

/-- `enum dfu_status`; only the two members the core uses.  Numeric codes
modelled from the spec (DFU 1.1 status values): OK = 0x00, errUNKNOWN = 0x0e;
the defining header `usb_dfu_proto.h` is not under `src/`. -/
inductive DStatus where
  | OK | errUNKNOWN
  deriving DecidableEq

/-- Numeric value of a `enum dfu_status` member. -/
def DStatus.code : DStatus → Nat
  | .OK => 0x00
  | .errUNKNOWN => 0x0e

/-- The writer operation field `g_dfu.flash.op`. -/
inductive FlOp where
  | FL_IDLE | FL_ERASE | FL_PROGRAM
  deriving DecidableEq

/-- The double-buffer bookkeeping `g_dfu.buf` (the `data` pages themselves are
not modelled).  All three fields are `uint8_t`. -/
structure BufSt where
  used : Nat
  wr : Nat
  rd : Nat
  deriving DecidableEq

/-- The writer state `g_dfu.flash`.  Address fields are `uint32_t`;
`op_ofs` / `op_len` are C `int`s that only ever hold small non-negative
values. -/
structure FlashSt where
  addr_recv : Nat
  addr_read : Nat
  addr_prog : Nat
  addr_erase : Nat
  addr_end : Nat
  selected : Nat
  op_ofs : Nat
  op_len : Nat
  op : FlOp
  deriving DecidableEq

/-- The whole mutable state of `usb_dfu.c`: `g_dfu` plus the two statics. -/
structure DfuSt where
  state : DState
  status : DStatus
  intf : Nat
  alt : Nat
  buf : BufSt
  flash : FlashSt
  should : Nat
  prog_retry : Nat
  deriving DecidableEq

/-- Environment of one `_dfu_tick` invocation: the value `flash_read_sr()`
would return and the value `flash_verify(...)` would return, both determined
by the flash hardware, which is outside the model. -/
structure TickEnv where
  sr : Nat
  should : Nat
  deriving DecidableEq

/-- Externally visible actions a tick or handler performs: the flash command
sequences issued over SPI, the chip-select switch, and the reboot hook. -/
inductive Act where
  | readSR
  | chipSelect (sel : Nat)
  | verify (addr len : Nat)
  | writeEnable
  | sectorErase (addr : Nat)
  | pageProgram (addr len : Nat)
  | reboot
  deriving DecidableEq

/-- `ERASE_SIZE_KB` compile-time constant (4 in the delivered configuration). -/
def ERASE_SIZE_KB : Nat := 4

/-- `PROG_RETRY`: maximal number of erase-or-program attempts per sector. -/
def PROG_RETRY : Nat := 4

/-- The `prog_retry == 0` branch of `_dfu_tick`: give up on the current
buffer, release the read slot, go idle.  (The reboot hook is invoked by the
caller, see `tickBody`.) -/
def tickFatal (g : DfuSt) : DfuSt :=
  { g with flash.op := FlOp.FL_IDLE,
           buf.rd := g.buf.rd ^^^ 1,
           buf.used := u8 (g.buf.used + 255) }

/-- The `op == FL_ERASE` section of `_dfu_tick`.  The source also computes a
clamped length `l` here, but never uses it in this branch.  The result of
`flash_verify` is the environment value `env.should`, stored into the
function-static `should`. -/
def erasePhase (g : DfuSt) (env : TickEnv) : DfuSt × List Act :=
  if g.flash.op = FlOp.FL_ERASE then
    let g1 : DfuSt := { g with should := env.should }
    if env.should &&& 1 = 0 then
      ({ g1 with flash.addr_erase := u32 (g1.flash.addr_prog + ERASE_SIZE_KB * 1024),
                 flash.op := FlOp.FL_PROGRAM },
       [Act.verify g1.flash.addr_prog (ERASE_SIZE_KB * 1024)])
    else
      ({ g1 with prog_retry := if g1.prog_retry ≠ 0 then g1.prog_retry - 1 else g1.prog_retry,
                 flash.addr_erase := u32 (g1.flash.addr_prog + 4096) },
       [Act.verify g1.flash.addr_prog (ERASE_SIZE_KB * 1024), Act.writeEnable,
        Act.sectorErase g1.flash.addr_prog])
  else (g, [])

/-- The `op == FL_PROGRAM` section of `_dfu_tick`.  Uses the persisted
`should` value (written by the erase section, possibly on this very tick). -/
def programPhase (g : DfuSt) : DfuSt × List Act :=
  if g.flash.op = FlOp.FL_PROGRAM then
    if g.should &&& 2 = 0 then
      ({ g with prog_retry := PROG_RETRY,
                flash.addr_prog := u32 (g.flash.addr_prog + g.flash.op_len),
                buf.rd := g.buf.rd ^^^ 1,
                buf.used := u8 (g.buf.used + 255),
                flash.op := FlOp.FL_IDLE }, [])
    else if g.flash.op_ofs = g.flash.op_len then
      ({ g with prog_retry := if g.prog_retry ≠ 0 then g.prog_retry - 1 else g.prog_retry,
                flash.op_len := 4096,
                flash.op_ofs := 0,
                flash.op := FlOp.FL_IDLE }, [])
    else
      let l := min (g.flash.op_len - g.flash.op_ofs)
                   (256 - ((g.flash.addr_prog + g.flash.op_ofs) &&& 0xff))
      ({ g with flash.op_ofs := g.flash.op_ofs + l },
       [Act.writeEnable, Act.pageProgram (u32 (g.flash.addr_prog + g.flash.op_ofs)) l])
  else (g, [])

/-- Body of `_dfu_tick` after the idle/busy dispatch: chip select, the fatal
retry-exhaustion branch, then the erase and program sections. -/
def tickBody (g : DfuSt) (env : TickEnv) : DfuSt × List Act :=
  if g.prog_retry = 0 then
    (tickFatal g, [Act.chipSelect g.flash.selected, Act.reboot])
  else
    let r1 := erasePhase g env
    let r2 := programPhase r1.1
    (r2.1, Act.chipSelect g.flash.selected :: (r1.2 ++ r2.2))

/-- `_dfu_tick` from `fw/usb_dfu.c` (`DFU_SOF_POLL_LIMIT` is undefined in the
delivered configuration, so there is no rate-limit prologue).  Returns the
new state and the list of actions performed, in order. -/
def _dfu_tick (g : DfuSt) (env : TickEnv) : DfuSt × List Act :=
  if g.flash.op = FlOp.FL_IDLE then
    if g.buf.used ≠ 0 then
      tickBody { g with flash.op := FlOp.FL_ERASE,
                        flash.op_len := 4096,
                        flash.op_ofs := 0 } env
    else (g, [])
  else if env.sr &&& 1 ≠ 0 then (g, [Act.readSR])
  else
    let r := tickBody g env
    (r.1, Act.readSR :: r.2)

/-- Whether an action is one of the five SPI flash command sequences counted
by the claim: status read, verify read, write-enable, erase, page-program. -/
def Act.isSpiOp : Act → Bool
  | Act.readSR => true
  | Act.verify _ _ => true
  | Act.writeEnable => true
  | Act.sectorErase _ => true
  | Act.pageProgram _ _ => true
  | Act.chipSelect _ => false
  | Act.reboot => false

/-- Whether an action is an erase or page-program command. -/
def Act.isEraseOrProgram : Act → Bool
  | Act.sectorErase _ => true
  | Act.pageProgram _ _ => true
  | _ => false

/-- Whether an action is a verify read. -/
def Act.isVerifyRead : Act → Bool
  | Act.verify _ _ => true
  | _ => false

/-- Whether an action is a status-register read. -/
def Act.isStatusRead : Act → Bool
  | Act.readSR => true
  | _ => false

/-- Whether an action is a write-enable command. -/
def Act.isWriteEnable : Act → Bool
  | Act.writeEnable => true
  | _ => false

/-- Number of actions in a tick's action list satisfying `p`. -/
def countActs (p : Act → Bool) (l : List Act) : Nat := (l.filter p).length

/-! ### DFU protocol machine (`fw/usb_dfu.c`) -/

/-- `enum usb_fnd_resp` (`CONTINUE`, `SUCCESS`, `ERROR`) plus a marker
`VENDOR` for the branch that delegates to the external vendor handler
`dfu_vendor_ctrl_req`, whose code is not part of this repository's core. -/
inductive FndResp where
  | CONTINUE | SUCCESS | ERROR | VENDOR
  deriving DecidableEq

/-- The fields of `struct usb_ctrl_req` the handler reads. -/
structure usb_ctrl_req where
  bmRequestType : Nat
  bRequest : Nat
  wIndex : Nat
  wLength : Nat
  deriving DecidableEq

/-- Modelled from the spec: the request-type field extractors of the missing
`usb.h` follow the USB standard layout of `bmRequestType` (type in bits 5-6,
recipient in bits 0-4). -/
def USB_REQ_TYPE (r : usb_ctrl_req) : Nat := r.bmRequestType &&& 0x60

/-- Recipient bits of `bmRequestType`. -/
def USB_REQ_RCPT (r : usb_ctrl_req) : Nat := r.bmRequestType &&& 0x1f

/-- Class request type (01 in bits 5-6). -/
def USB_REQ_TYPE_CLASS : Nat := 0x20

/-- Vendor request type (10 in bits 5-6). -/
def USB_REQ_TYPE_VENDOR : Nat := 0x40

/-- Interface recipient. -/
def USB_REQ_RCPT_INTF : Nat := 0x01

/-- Modelled from the spec: DFU `bRequest` values (spec section 6 table; the
defining header `usb_dfu_proto.h` is not under `src/`). -/
def USB_REQ_DFU_DETACH : Nat := 0

/-- DNLOAD request number. -/
def USB_REQ_DFU_DNLOAD : Nat := 1

/-- UPLOAD request number. -/
def USB_REQ_DFU_UPLOAD : Nat := 2

/-- GETSTATUS request number. -/
def USB_REQ_DFU_GETSTATUS : Nat := 3

/-- CLRSTATUS request number. -/
def USB_REQ_DFU_CLRSTATUS : Nat := 4

/-- GETSTATE request number. -/
def USB_REQ_DFU_GETSTATE : Nat := 5

/-- ABORT request number. -/
def USB_REQ_DFU_ABORT : Nat := 6

/-- The 16-bit `wRequestAndType` overlay of `struct usb_ctrl_req`:
`bmRequestType` in the low byte, `bRequest` in the high byte (both are
`uint8_t` fields in the source). -/
def wRequestAndType (r : usb_ctrl_req) : Nat :=
  ((u8 r.bRequest) <<< 8) ||| u8 r.bmRequestType

/-- Modelled from the spec: the `USB_RT_DFU_*` switch keys of the missing
`usb_dfu_proto.h` pair each request number with its full `bmRequestType`
byte; the spec section 6 table fixes the directions (DETACH, DNLOAD,
CLRSTATUS, ABORT are host-to-device 0x21; UPLOAD, GETSTATUS, GETSTATE are
device-to-host 0xa1). -/
def USB_RT_DFU_DETACH : Nat := (USB_REQ_DFU_DETACH <<< 8) ||| 0x21

/-- DNLOAD switch key (OUT). -/
def USB_RT_DFU_DNLOAD : Nat := (USB_REQ_DFU_DNLOAD <<< 8) ||| 0x21

/-- UPLOAD switch key (IN). -/
def USB_RT_DFU_UPLOAD : Nat := (USB_REQ_DFU_UPLOAD <<< 8) ||| 0xa1

/-- GETSTATUS switch key (IN). -/
def USB_RT_DFU_GETSTATUS : Nat := (USB_REQ_DFU_GETSTATUS <<< 8) ||| 0xa1

/-- CLRSTATUS switch key (OUT). -/
def USB_RT_DFU_CLRSTATUS : Nat := (USB_REQ_DFU_CLRSTATUS <<< 8) ||| 0x21

/-- GETSTATE switch key (IN). -/
def USB_RT_DFU_GETSTATE : Nat := (USB_REQ_DFU_GETSTATE <<< 8) ||| 0xa1

/-- ABORT switch key (OUT). -/
def USB_RT_DFU_ABORT : Nat := (USB_REQ_DFU_ABORT <<< 8) ||| 0x21

/-- The static table `dfu_valid_req`: per-state bitmask of allowed requests. -/
def dfu_valid_req : DState → Nat
  | DState.appIDLE =>
      (1 <<< USB_REQ_DFU_DETACH) ||| (1 <<< USB_REQ_DFU_GETSTATUS) |||
      (1 <<< USB_REQ_DFU_GETSTATE)
  | DState.appDETACH =>
      (1 <<< USB_REQ_DFU_GETSTATUS) ||| (1 <<< USB_REQ_DFU_GETSTATE)
  | DState.dfuIDLE =>
      (1 <<< USB_REQ_DFU_DETACH) ||| (1 <<< USB_REQ_DFU_DNLOAD) |||
      (1 <<< USB_REQ_DFU_UPLOAD) ||| (1 <<< USB_REQ_DFU_GETSTATUS) |||
      (1 <<< USB_REQ_DFU_GETSTATE) ||| (1 <<< USB_REQ_DFU_ABORT)
  | DState.dfuDNLOAD_SYNC =>
      (1 <<< USB_REQ_DFU_DNLOAD) ||| (1 <<< USB_REQ_DFU_GETSTATUS) |||
      (1 <<< USB_REQ_DFU_GETSTATE) ||| (1 <<< USB_REQ_DFU_ABORT)
  | DState.dfuDNBUSY => 0
  | DState.dfuDNLOAD_IDLE =>
      (1 <<< USB_REQ_DFU_DNLOAD) ||| (1 <<< USB_REQ_DFU_GETSTATUS) |||
      (1 <<< USB_REQ_DFU_GETSTATE) ||| (1 <<< USB_REQ_DFU_ABORT)
  | DState.dfuMANIFEST_SYNC =>
      (1 <<< USB_REQ_DFU_GETSTATUS) ||| (1 <<< USB_REQ_DFU_GETSTATE) |||
      (1 <<< USB_REQ_DFU_ABORT)
  | DState.dfuMANIFEST => 0
  | DState.dfuMANIFEST_WAIT_RESET => 0
  | DState.dfuUPLOAD_IDLE =>
      (1 <<< USB_REQ_DFU_UPLOAD) ||| (1 <<< USB_REQ_DFU_GETSTATUS) |||
      (1 <<< USB_REQ_DFU_GETSTATE) ||| (1 <<< USB_REQ_DFU_ABORT)
  | DState.dfuERROR =>
      (1 <<< USB_REQ_DFU_GETSTATUS) ||| (1 <<< USB_REQ_DFU_CLRSTATUS) |||
      (1 <<< USB_REQ_DFU_GETSTATE)

/-- `_dfu_dnload_done_cb`: data-phase completion of an accepted DNLOAD.
Flips `wr`, increments `used`, moves the machine to `dfuDNLOAD_SYNC`. -/
def _dfu_dnload_done_cb (g : DfuSt) : DfuSt :=
  { g with buf.wr := g.buf.wr ^^^ 1,
           buf.used := u8 (g.buf.used + 1),
           state := DState.dfuDNLOAD_SYNC }

/-- The `while (g_dfu.buf.used) _dfu_tick();` loop of the GETSTATUS
manifest shortcut.  The environment list supplies the hardware responses of
the successive ticks; the C loop keeps ticking while `used != 0`, so a finite
environment models a finite prefix of the pump. -/
def drain : List TickEnv → DfuSt → DfuSt
  | [], g => g
  | e :: es, g => if g.buf.used = 0 then g else drain es (_dfu_tick g e).1

/-- `DFU_HOST_POLL_MS` (bwPollTimeout reported by GETSTATUS). -/
def DFU_HOST_POLL_MS : Nat := 5

/-- Result of `_dfu_ctrl_req`: the new state, the handler disposition, the
bytes the handler wrote into the transfer buffer (GETSTATUS: 6 bytes,
GETSTATE: 1 byte), and which completion callback it installed. -/
structure CtrlResult where
  g : DfuSt
  resp : FndResp
  data : List Nat
  setsDnloadCb : Bool
  setsDetachCb : Bool
  deriving DecidableEq

/-- The `error:` label of `_dfu_ctrl_req`. -/
def ctrlError (g : DfuSt) : CtrlResult :=
  ⟨{ g with state := DState.dfuERROR, status := DStatus.errUNKNOWN },
    FndResp.ERROR, [], false, false⟩

/-- The GETSTATUS case of `_dfu_ctrl_req` (with `DFU_UTIL_SPEEDUP_WORDAROUND`
defined, as in the source): determine the reported state, transitioning and
synchronously pumping the writer as required, then emit the 6-byte payload. -/
def ctrlGetStatus (g : DfuSt) (envs : List TickEnv) : CtrlResult :=
  let r : DfuSt × Nat :=
    if g.state = DState.dfuDNLOAD_SYNC then
      if g.buf.used < 2 then
        ({ g with state := DState.dfuDNLOAD_IDLE }, DState.dfuDNLOAD_IDLE.code)
      else (g, DState.dfuDNBUSY.code)
    else if g.state = DState.dfuMANIFEST_SYNC then
      (drain envs { g with state := DState.dfuIDLE }, DState.dfuIDLE.code)
    else (g, g.state.code)
  ⟨r.1, FndResp.SUCCESS,
    [r.1.status.code, (DFU_HOST_POLL_MS >>> 0) &&& 0xff, (DFU_HOST_POLL_MS >>> 8) &&& 0xff,
      (DFU_HOST_POLL_MS >>> 16) &&& 0xff, r.2, 0],
    false, false⟩

/-- `_dfu_ctrl_req` from `fw/usb_dfu.c` (with `DFU_VENDOR_PROTO` defined).
After the interface, vendor, class and state-gating checks the source
switches on `req->wRequestAndType`, so each case also matches the request's
direction byte; a class request with a mismatched `bmRequestType` falls to
the `default:` label and errors.  `envs` supplies the hardware responses for
the ticks of the GETSTATUS manifest drain.  Buffer contents (the DNLOAD 0xFF
tail padding, the UPLOAD flash read) are not modelled; cursor arithmetic
is. -/
def _dfu_ctrl_req (g : DfuSt) (req : usb_ctrl_req) (envs : List TickEnv) : CtrlResult :=
  if req.wIndex ≠ g.intf then ⟨g, FndResp.CONTINUE, [], false, false⟩
  else if USB_REQ_TYPE req ||| USB_REQ_RCPT req = USB_REQ_TYPE_VENDOR ||| USB_REQ_RCPT_INTF then
    ⟨g, FndResp.VENDOR, [], false, false⟩
  else if USB_REQ_TYPE req ||| USB_REQ_RCPT req ≠ USB_REQ_TYPE_CLASS ||| USB_REQ_RCPT_INTF then
    ⟨g, FndResp.CONTINUE, [], false, false⟩
  else if dfu_valid_req g.state &&& (1 <<< req.bRequest) = 0 then ctrlError g
  else if wRequestAndType req = USB_RT_DFU_DETACH then
    ⟨g, FndResp.SUCCESS, [], false, true⟩
  else if wRequestAndType req = USB_RT_DFU_DNLOAD then
    if req.wLength ≠ 0 then
      let g1 : DfuSt := { g with flash.addr_recv := u32 (g.flash.addr_recv + req.wLength) }
      if g1.flash.addr_recv > g1.flash.addr_end then ctrlError g1
      else ⟨g1, FndResp.SUCCESS, [], true, false⟩
    else ⟨{ g with state := DState.dfuMANIFEST_SYNC }, FndResp.SUCCESS, [], false, false⟩
  else if wRequestAndType req = USB_RT_DFU_UPLOAD then
    let len := if g.flash.addr_read + req.wLength > g.flash.addr_end
               then u32sub g.flash.addr_end g.flash.addr_read
               else req.wLength
    ⟨{ g with flash.addr_read :=
          if len ≠ 0 then u32 (g.flash.addr_read + len) else g.flash.addr_read },
      FndResp.SUCCESS, [], false, false⟩
  else if wRequestAndType req = USB_RT_DFU_GETSTATUS then ctrlGetStatus g envs
  else if wRequestAndType req = USB_RT_DFU_CLRSTATUS then
    ⟨{ g with state := DState.dfuIDLE, status := DStatus.OK }, FndResp.SUCCESS, [], false, false⟩
  else if wRequestAndType req = USB_RT_DFU_GETSTATE then
    ⟨g, FndResp.SUCCESS, [g.state.code], false, false⟩
  else if wRequestAndType req = USB_RT_DFU_ABORT then
    ⟨{ g with state := DState.dfuIDLE }, FndResp.SUCCESS, [], false, false⟩
  else ctrlError g

/-- Flash chip-select id of the internal flash.  The numeric values of
`FLASHCHIP_INTERNAL` / `FLASHCHIP_CART` come from a header that is not under
`src/`; only their identity matters here. -/
def FLASHCHIP_INTERNAL : Nat := 0

/-- Flash chip-select id of the cartridge flash. -/
def FLASHCHIP_CART : Nat := 1

/-- One row of `dfu_zones`: chip select, start address, and (exclusive) end
address.  `zend` embeds the C field `end` (a Lean keyword). -/
structure DfuZone where
  flashsel : Nat
  start : Nat
  zend : Nat
  deriving DecidableEq

/-- The compile-time zone table `dfu_zones[7]`. -/
def dfu_zones : List DfuZone :=
  [ ⟨FLASHCHIP_INTERNAL, 0x00200000, 0x01000000⟩,
    ⟨FLASHCHIP_INTERNAL, 0x00340000, 0x00380000⟩,
    ⟨FLASHCHIP_INTERNAL, 0x00380000, 0x01000000⟩,
    ⟨FLASHCHIP_INTERNAL, 0x00400000, 0x01000000⟩,
    ⟨FLASHCHIP_INTERNAL, 0x00800000, 0x01000000⟩,
    ⟨FLASHCHIP_INTERNAL, 0x00000000, 0x00200000⟩,
    ⟨FLASHCHIP_CART,     0x00000000, 0x00000100⟩ ]

/-- The fields of `struct usb_intf_desc` that `_dfu_set_intf` reads. -/
structure usb_intf_desc where
  bInterfaceNumber : Nat
  bAlternateSetting : Nat
  bInterfaceClass : Nat
  bInterfaceSubClass : Nat
  bInterfaceProtocol : Nat
  deriving DecidableEq

/-- `_dfu_set_intf` from `fw/usb_dfu.c`.  The source indexes `dfu_zones`
directly with the alternate setting and performs no bounds check; the
embedding returns `none` exactly when that access would read outside the
7-entry table. -/
def _dfu_set_intf (g : DfuSt) (sel : usb_intf_desc) : Option (DfuSt × FndResp) :=
  if sel.bInterfaceClass ≠ 0xfe ∨ sel.bInterfaceSubClass ≠ 0x01 ∨
     sel.bInterfaceProtocol ≠ 0x02 then
    some (g, FndResp.CONTINUE)
  else
    match dfu_zones.get? sel.bAlternateSetting with
    | none => none
    | some z =>
      some ({ g with state := DState.dfuIDLE,
                     intf := sel.bInterfaceNumber,
                     alt := sel.bAlternateSetting,
                     flash.addr_recv := z.start,
                     flash.addr_read := z.start,
                     flash.addr_prog := z.start,
                     flash.addr_erase := z.start,
                     flash.addr_end := z.zend,
                     flash.selected := z.flashsel },
            FndResp.SUCCESS)

/-- `_dfu_state_chg`: the machine enters `dfuIDLE` when the USB device
reaches the CONFIGURED state (other device states leave it untouched). -/
def _dfu_state_chg (g : DfuSt) (configured : Bool) : DfuSt :=
  if configured then { g with state := DState.dfuIDLE } else g

/-- `usb_dfu_init`: `g_dfu` is zeroed, then `state` is set to `appDETACH`.
The statics keep their load-time values (`prog_retry = PROG_RETRY`,
`should = 0`). -/
def dfuInit : DfuSt :=
  { state := DState.appDETACH, status := DStatus.OK, intf := 0, alt := 0,
    buf := ⟨0, 0, 0⟩,
    flash := ⟨0, 0, 0, 0, 0, 0, 0, 0, FlOp.FL_IDLE⟩,
    should := 0, prog_retry := PROG_RETRY }

/-! ### Reachability relations and invariants -/

/-- Double-buffer invariant: `wr` and `rd` are single bits, the occupancy is
0, 1 or 2 and agrees with the parity of `wr` and `rd` (equal indices at even
occupancy, distinct at odd), and a buffer is in flight whenever the writer is
mid-operation. -/
def Inv6 (g : DfuSt) : Prop :=
  g.buf.wr ≤ 1 ∧ g.buf.rd ≤ 1 ∧ g.buf.used ≤ 2 ∧
  (g.buf.wr + g.buf.rd + g.buf.used) % 2 = 0 ∧
  (g.flash.op ≠ FlOp.FL_IDLE → 1 ≤ g.buf.used)

/-- States reachable from the initialized machine by alternating DNLOAD
commit callbacks (which the USB stack only delivers while a slot is free,
`used < 2`) and writer ticks under arbitrary hardware responses. -/
inductive Reach6 : DfuSt → Prop where
  | init : Reach6 dfuInit
  | commit {g} : Reach6 g → g.buf.used < 2 → Reach6 (_dfu_dnload_done_cb g)
  | tick {g} (env : TickEnv) : Reach6 g → Reach6 (_dfu_tick g env).1

/-- Bytes accounted for by an accepted-but-uncommitted DNLOAD data phase. -/
def padOf : Bool → Nat
  | true => 4096
  | false => 0

/-- Cursor invariant of the full machine: the write cursor accounts for every
committed and every accepted-but-uncommitted 4 KiB buffer, the receive cursor
stays within the zone, and mid-operation bookkeeping is consistent.  `p`
records whether a DNLOAD data phase has been accepted whose completion
callback has not yet run. -/
def Inv3 (g : DfuSt) (p : Bool) : Prop :=
  g.flash.addr_prog + 4096 * g.buf.used + padOf p ≤ g.flash.addr_recv ∧
  g.flash.addr_recv ≤ g.flash.addr_end ∧
  g.flash.addr_end < 4294967296 ∧
  g.buf.used ≤ 2 ∧
  (g.flash.op ≠ FlOp.FL_IDLE → 1 ≤ g.buf.used ∧ g.flash.op_len = 4096)

/-- States of the full DFU machine reachable from initialization along
well-behaved traces: every DNLOAD data transfer carries a full 4096-byte
block and respects the zone bound (it is never rejected), a new control
request or interface change only arrives once the previous data phase has
completed, and the host only changes interface while the pipeline is
quiescent.  All other events — ticks under arbitrary hardware responses,
every other control request (including rejected ones), commits, the
CONFIGURED transition — are unrestricted. -/
inductive Reach3 : DfuSt → Bool → Prop where
  | init : Reach3 dfuInit false
  | configured {g p} : Reach3 g p → Reach3 (_dfu_state_chg g true) p
  | set_intf {g sel g2 r} : Reach3 g false → g.buf.used = 0 → g.flash.op = FlOp.FL_IDLE →
      _dfu_set_intf g sel = some (g2, r) → Reach3 g2 false
  | ctrl {g} (req : usb_ctrl_req) (envs : List TickEnv) : Reach3 g false →
      (wRequestAndType req = USB_RT_DFU_DNLOAD → req.wLength ≠ 0 →
        req.wLength = 4096 ∧ g.flash.addr_recv + 4096 ≤ g.flash.addr_end) →
      Reach3 (_dfu_ctrl_req g req envs).g (_dfu_ctrl_req g req envs).setsDnloadCb
  | commit {g} : Reach3 g true → g.buf.used < 2 → Reach3 (_dfu_dnload_done_cb g) false
  | tick {g p} (env : TickEnv) : Reach3 g p → Reach3 (_dfu_tick g env).1 p

/-! ### Concrete instances used by counterexamples and witnesses -/

/-- A state with one committed buffer awaiting the writer on zone 0 (the
machine right after the first 4 KiB DNLOAD commit): writer idle, retries
fresh. -/
def tickDemoSt : DfuSt :=
  { state := DState.dfuDNLOAD_SYNC, status := DStatus.OK, intf := 0, alt := 0,
    buf := ⟨1, 1, 0⟩,
    flash := ⟨0x00201000, 0x00200000, 0x00200000, 0x00200000, 0x01000000,
              FLASHCHIP_INTERNAL, 0, 0, FlOp.FL_IDLE⟩,
    should := 0, prog_retry := PROG_RETRY }

/-- The same pipeline state but with the retry counter exhausted. -/
def tickFatalSt : DfuSt :=
  { tickDemoSt with prog_retry := 0 }

/-- Interface descriptor selecting alternate setting 6 (the cartridge RTC
zone) on DFU interface 0. -/
def descAlt6 : usb_intf_desc := ⟨0, 6, 0xfe, 0x01, 0x02⟩

/-- Interface descriptor selecting alternate setting 3. -/
def descAlt3 : usb_intf_desc := ⟨0, 3, 0xfe, 0x01, 0x02⟩

/-- A class DNLOAD request for interface 0 carrying 0x200 bytes. -/
def dnloadReq512 : usb_ctrl_req := ⟨0x21, USB_REQ_DFU_DNLOAD, 0, 0x200⟩

/-- The machine configured and switched to alternate setting 6, obtained by
running the embedded handlers from the initial state. -/
def stAlt6 : DfuSt :=
  ((_dfu_set_intf (_dfu_state_chg dfuInit true) descAlt6).getD
    (dfuInit, FndResp.CONTINUE)).1

/-- A GETSTATUS class request for interface 0. -/
def getStatusReq : usb_ctrl_req := ⟨0xa1, USB_REQ_DFU_GETSTATUS, 0, 6⟩

/-- An idle machine on a zone ending at 0x100 with the receive cursor at the
start, used to exercise the DNLOAD bound check. -/
def c4st : DfuSt := { dfuInit with state := DState.dfuIDLE, flash.addr_end := 0x100 }

/-! ### Lemmas: shape of the verify accumulator -/

theorem verifyByte_wf {acc : VerifyAcc} (h : accWF acc) (e a : Nat) :
    accWF (verifyByte acc e a) := by
  obtain ⟨he, hw, hew⟩ := h
  unfold verifyByte accWF
  dsimp only
  refine ⟨?_, ?_, ?_⟩
  · rcases he with h1 | h1 <;> rw [h1] <;> split <;> decide
  · rcases hw with h1 | h1 <;> rw [h1] <;> split <;> decide
  · rcases hew with h1 | h1 | h1 <;> rw [h1] <;> split <;> decide

theorem verifyByte_ew_of_ne {acc : VerifyAcc} (h : accWF acc) {e : Nat} (he : e ≠ 0xFF)
    (a : Nat) : (verifyByte acc e a).should_ew = 3 := by
  obtain ⟨-, -, hew⟩ := h
  unfold verifyByte
  dsimp only
  rw [if_pos he]
  rcases hew with h1 | h1 | h1 <;> rw [h1] <;> decide

theorem verifyByte_ew_keep {acc : VerifyAcc} (h : acc.should_ew = 3) (e a : Nat) :
    (verifyByte acc e a).should_ew = 3 := by
  unfold verifyByte
  dsimp only
  rw [h]
  split <;> decide

theorem verifyChunkBytes_wf (bus : Nat → Nat) :
    ∀ (data : List Nat) (pos : Nat) (acc : VerifyAcc), accWF acc →
      accWF (verifyChunkBytes bus pos data acc).1
  | [], _, _, h => h
  | e :: rest, pos, acc, h =>
    verifyChunkBytes_wf bus rest (pos + 1) _ (verifyByte_wf h e (bus pos))

theorem verifyChunkBytes_ew_keep (bus : Nat → Nat) :
    ∀ (data : List Nat) (pos : Nat) (acc : VerifyAcc), acc.should_ew = 3 →
      (verifyChunkBytes bus pos data acc).1.should_ew = 3
  | [], _, _, h => h
  | e :: rest, pos, acc, h =>
    verifyChunkBytes_ew_keep bus rest (pos + 1) _ (verifyByte_ew_keep h e (bus pos))

theorem verifyChunkBytes_ew_of_mem (bus : Nat → Nat) :
    ∀ (data : List Nat) (pos : Nat) (acc : VerifyAcc), accWF acc →
      (∃ e ∈ data, e ≠ 0xFF) →
      (verifyChunkBytes bus pos data acc).1.should_ew = 3 := by
  intro data
  induction data with
  | nil => intro pos acc _ hx; simp at hx
  | cons e rest ih =>
    intro pos acc hwf hx
    rcases hx with ⟨b, hb, hbne⟩
    rcases List.mem_cons.mp hb with hb | hb
    · subst hb
      exact verifyChunkBytes_ew_keep bus rest (pos + 1) _
        (verifyByte_ew_of_ne hwf hbne (bus pos))
    · exact ih (pos + 1) _ (verifyByte_wf hwf e (bus pos)) ⟨b, hb, hbne⟩

theorem verifyChunks_wf (bus : Nat → Nat) :
    ∀ (chunks : List spi_xfer_chunk) (pos : Nat) (acc : VerifyAcc), accWF acc →
      accWF (verifyChunks bus pos chunks acc) := by
  intro chunks
  induction chunks with
  | nil => intro pos acc h; exact h
  | cons c rest ih =>
    intro pos acc h
    unfold verifyChunks
    split
    · exact ih _ _ (verifyChunkBytes_wf bus c.data pos acc h)
    · exact ih _ _ h

theorem verifyChunks_ew_keep (bus : Nat → Nat) :
    ∀ (chunks : List spi_xfer_chunk) (pos : Nat) (acc : VerifyAcc), accWF acc →
      acc.should_ew = 3 →
      (verifyChunks bus pos chunks acc).should_ew = 3 := by
  intro chunks
  induction chunks with
  | nil => intro pos acc _ h; exact h
  | cons c rest ih =>
    intro pos acc hwf h
    unfold verifyChunks
    split
    · exact ih _ _ (verifyChunkBytes_wf bus c.data pos acc hwf)
        (verifyChunkBytes_ew_keep bus c.data pos acc h)
    · exact ih _ _ hwf h

theorem verifyChunks_ew_of_mem (bus : Nat → Nat) :
    ∀ (chunks : List spi_xfer_chunk) (pos : Nat) (acc : VerifyAcc), accWF acc →
      (∃ c ∈ chunks, c.read = true ∧ ∃ e ∈ c.data, e ≠ 0xFF) →
      (verifyChunks bus pos chunks acc).should_ew = 3 := by
  intro chunks
  induction chunks with
  | nil => intro pos acc _ hx; simp at hx
  | cons c rest ih =>
    intro pos acc hwf hx
    rcases hx with ⟨d, hd, hdr, hde⟩
    unfold verifyChunks
    rcases List.mem_cons.mp hd with hd | hd
    · subst hd
      rw [if_pos hdr]
      exact verifyChunks_ew_keep bus rest _ _
        (verifyChunkBytes_wf bus d.data pos acc hwf)
        (verifyChunkBytes_ew_of_mem bus d.data pos acc hwf hde)
    · split
      · exact ih _ _ (verifyChunkBytes_wf bus c.data pos acc hwf) ⟨d, hd, hdr, hde⟩
      · exact ih _ _ hwf ⟨d, hd, hdr, hde⟩

/-! ### C1: SPI operations per writer tick -/

/-- C1 counterexample: the claim says one `_dfu_tick` invocation performs at
most one SPI operation.  From a state with one committed buffer, a fresh
retry counter and a dirty flash (verify answers erase+write), a single tick
issues three flash command sequences: the verify read, the write-enable and
the sector erase. -/
theorem c1_tick_three_spi_ops :
    countActs Act.isSpiOp (_dfu_tick tickDemoSt ⟨0, 3⟩).2 = 3 ∧
    ¬ countActs Act.isSpiOp (_dfu_tick tickDemoSt ⟨0, 3⟩).2 ≤ 1 := by
  decide

theorem countActs_append (p : Act → Bool) (l1 l2 : List Act) :
    countActs p (l1 ++ l2) = countActs p l1 + countActs p l2 := by
  simp [countActs, List.filter_append]

/-- The erase section either performs nothing, or exactly one verify read, or
a verify read plus write-enable plus sector erase; in the latter case the
operation register still reads `FL_ERASE`, so the program section cannot run
on the same tick. -/
theorem erasePhase_cases (g : DfuSt) (env : TickEnv) :
    (erasePhase g env).2 = [] ∨
    (countActs Act.isSpiOp (erasePhase g env).2 = 1 ∧
     countActs Act.isStatusRead (erasePhase g env).2 = 0 ∧
     countActs Act.isVerifyRead (erasePhase g env).2 = 1 ∧
     countActs Act.isWriteEnable (erasePhase g env).2 = 0 ∧
     countActs Act.isEraseOrProgram (erasePhase g env).2 = 0) ∨
    (countActs Act.isSpiOp (erasePhase g env).2 = 3 ∧
     countActs Act.isStatusRead (erasePhase g env).2 = 0 ∧
     countActs Act.isVerifyRead (erasePhase g env).2 = 1 ∧
     countActs Act.isWriteEnable (erasePhase g env).2 = 1 ∧
     countActs Act.isEraseOrProgram (erasePhase g env).2 = 1 ∧
     (erasePhase g env).1.flash.op ≠ FlOp.FL_PROGRAM) := by
  unfold erasePhase
  split_ifs with h1 h2
  · right; left
    simp [countActs, Act.isSpiOp, Act.isStatusRead, Act.isVerifyRead,
      Act.isWriteEnable, Act.isEraseOrProgram]
  · right; right
    refine ⟨?_, ?_, ?_, ?_, ?_, ?_⟩ <;>
      simp [countActs, Act.isSpiOp, Act.isStatusRead, Act.isVerifyRead,
        Act.isWriteEnable, Act.isEraseOrProgram, h1]
  · left; rfl

/-- The program section performs nothing or exactly a write-enable plus a
page program. -/
theorem programPhase_cases (g : DfuSt) :
    (programPhase g).2 = [] ∨
    (countActs Act.isSpiOp (programPhase g).2 = 2 ∧
     countActs Act.isStatusRead (programPhase g).2 = 0 ∧
     countActs Act.isVerifyRead (programPhase g).2 = 0 ∧
     countActs Act.isWriteEnable (programPhase g).2 = 1 ∧
     countActs Act.isEraseOrProgram (programPhase g).2 = 1) := by
  unfold programPhase
  split_ifs
  · left; rfl
  · left; rfl
  · left; rfl
  · right
    simp [countActs, Act.isSpiOp, Act.isStatusRead, Act.isVerifyRead,
      Act.isWriteEnable, Act.isEraseOrProgram]
  · left; rfl

/-- When the erase section issues the erase command, the program section of
the same tick is inert. -/
theorem programPhase_of_not_program (g : DfuSt) (h : g.flash.op ≠ FlOp.FL_PROGRAM) :
    (programPhase g).2 = [] ∧ (programPhase g).1 = g := by
  unfold programPhase
  rw [if_neg h]
  exact ⟨rfl, rfl⟩

theorem countActs_nil (p : Act → Bool) : countActs p [] = 0 := rfl

theorem countActs_cons (p : Act → Bool) (a : Act) (l : List Act) :
    countActs p (a :: l) = (if p a then 1 else 0) + countActs p l := by
  simp only [countActs, List.filter_cons]
  split <;> simp [Nat.add_comm]

theorem tickBody_spi_op_bounds (g : DfuSt) (env : TickEnv) :
    countActs Act.isSpiOp (tickBody g env).2 ≤ 3 ∧
    countActs Act.isStatusRead (tickBody g env).2 = 0 ∧
    countActs Act.isVerifyRead (tickBody g env).2 ≤ 1 ∧
    countActs Act.isWriteEnable (tickBody g env).2 ≤ 1 ∧
    countActs Act.isEraseOrProgram (tickBody g env).2 ≤ 1 := by
  unfold tickBody
  split_ifs
  · simp [countActs, Act.isSpiOp, Act.isStatusRead, Act.isVerifyRead,
      Act.isWriteEnable, Act.isEraseOrProgram]
  · dsimp only
    have hcs : ∀ p : Act → Bool, p (Act.chipSelect g.flash.selected) = false →
        ∀ l, countActs p (Act.chipSelect g.flash.selected :: l) = countActs p l := by
      intro p hp l
      simp [countActs, List.filter, hp]
    rw [hcs Act.isSpiOp rfl, hcs Act.isStatusRead rfl, hcs Act.isVerifyRead rfl,
        hcs Act.isWriteEnable rfl, hcs Act.isEraseOrProgram rfl,
        countActs_append, countActs_append, countActs_append, countActs_append,
        countActs_append]
    rcases erasePhase_cases g env with he | ⟨e1, e2, e3, e4, e5⟩ | ⟨e1, e2, e3, e4, e5, hop⟩
    · rw [he, countActs_nil, countActs_nil, countActs_nil, countActs_nil, countActs_nil]
      rcases programPhase_cases (erasePhase g env).1 with hp | ⟨p1, p2, p3, p4, p5⟩
      · rw [hp, countActs_nil, countActs_nil, countActs_nil, countActs_nil, countActs_nil]
        omega
      · omega
    · rcases programPhase_cases (erasePhase g env).1 with hp | ⟨p1, p2, p3, p4, p5⟩
      · rw [hp, countActs_nil, countActs_nil, countActs_nil, countActs_nil, countActs_nil]
        omega
      · omega
    · obtain ⟨hp2, -⟩ := programPhase_of_not_program (erasePhase g env).1 hop
      rw [hp2, countActs_nil, countActs_nil, countActs_nil, countActs_nil, countActs_nil]
      omega

/-- C1 amended: one invocation of `_dfu_tick` performs at most four SPI
operations, and of each kind at most one: at most one status read, at most
one verify read, at most one write-enable, and at most one erase-or-
page-program command. -/
theorem c1_tick_spi_op_bounds (g : DfuSt) (env : TickEnv) :
    countActs Act.isSpiOp (_dfu_tick g env).2 ≤ 4 ∧
    countActs Act.isStatusRead (_dfu_tick g env).2 ≤ 1 ∧
    countActs Act.isVerifyRead (_dfu_tick g env).2 ≤ 1 ∧
    countActs Act.isWriteEnable (_dfu_tick g env).2 ≤ 1 ∧
    countActs Act.isEraseOrProgram (_dfu_tick g env).2 ≤ 1 := by
  unfold _dfu_tick
  split_ifs
  · obtain ⟨b1, b2, b3, b4, b5⟩ := tickBody_spi_op_bounds
      { g with flash.op := FlOp.FL_ERASE, flash.op_len := 4096, flash.op_ofs := 0 } env
    exact ⟨by omega, by omega, b3, b4, b5⟩
  · simp [countActs]
  · simp [countActs, List.filter, Act.isSpiOp, Act.isStatusRead, Act.isVerifyRead,
      Act.isWriteEnable, Act.isEraseOrProgram]
  · dsimp only
    rw [countActs_cons, countActs_cons, countActs_cons, countActs_cons, countActs_cons]
    obtain ⟨b1, b2, b3, b4, b5⟩ := tickBody_spi_op_bounds g env
    simp only [show (if Act.isSpiOp Act.readSR = true then 1 else 0) = 1 from rfl,
      show (if Act.isStatusRead Act.readSR = true then 1 else 0) = 1 from rfl,
      show (if Act.isVerifyRead Act.readSR = true then 1 else 0) = 0 from rfl,
      show (if Act.isWriteEnable Act.readSR = true then 1 else 0) = 0 from rfl,
      show (if Act.isEraseOrProgram Act.readSR = true then 1 else 0) = 0 from rfl]
    omega

/-! ### C2: codes returned by the verify transfer -/

/-- C2 counterexample: the claim says `spi_xfer_verify` returns only 0, 2 or
3 and never surfaces the erase-only code 1.  With a single read chunk whose
expected byte is 0xFF while the flash returns 0x00 (and likewise for
`flash_verify` of a one-byte all-0xFF buffer), the accumulated `should_ew`
is 1 and the erase bit is set, so the function returns exactly 1. -/
theorem c2_verify_returns_one :
    spi_xfer_verify 0 [⟨[0xFF], true, false⟩] (fun _ => 0) = 1 ∧
    flash_verify [0xFF] 0 (fun _ => 0) = 1 := by
  constructor <;> rfl

/-- C2 amended: whenever at least one expected byte under a read chunk
differs from 0xFF, `spi_xfer_verify` returns only 0, 2 or 3 (the erase-only
code 1 can only arise when every expected byte under read equals 0xFF). -/
theorem c2_verify_codes (cs : Nat) (chunks : List spi_xfer_chunk) (bus : Nat → Nat)
    (hx : ∃ c ∈ chunks, c.read = true ∧ ∃ e ∈ c.data, e ≠ 0xFF) :
    spi_xfer_verify cs chunks bus = 0 ∨ spi_xfer_verify cs chunks bus = 2 ∨
    spi_xfer_verify cs chunks bus = 3 := by
  unfold spi_xfer_verify
  have h0 : accWF (⟨0, 0, 0⟩ : VerifyAcc) := ⟨Or.inl rfl, Or.inl rfl, Or.inl rfl⟩
  have hwf := verifyChunks_wf bus chunks 0 _ h0
  have hew := verifyChunks_ew_of_mem bus chunks 0 _ h0 hx
  dsimp only
  split
  · exact Or.inr (Or.inr hew)
  · rcases hwf.2.1 with h | h
    · exact Or.inl h
    · exact Or.inr (Or.inl h)

/-- Witness for the amended C2 theorem at a concrete transfer: one read chunk
expecting the byte 0x5a. -/
theorem c2_verify_codes_witness :
    spi_xfer_verify 0 [⟨[0x5a], true, false⟩] (fun _ => 0) = 0 ∨
    spi_xfer_verify 0 [⟨[0x5a], true, false⟩] (fun _ => 0) = 2 ∨
    spi_xfer_verify 0 [⟨[0x5a], true, false⟩] (fun _ => 0) = 3 :=
  c2_verify_codes 0 [⟨[0x5a], true, false⟩] (fun _ => 0)
    ⟨⟨[0x5a], true, false⟩, by simp, rfl, 0x5a, by simp, by decide⟩

/-! ### C4: DNLOAD bound check -/

/-- C4: a DNLOAD request with `wLength > 0`, addressed to the DFU interface
as a class request, in a state that allows DNLOAD, is rejected with
`dfuERROR` / `errUNKNOWN` exactly when `addr_recv + wLength` exceeds
`addr_end`; otherwise it is accepted and the commit callback is installed.
The no-overflow hypothesis reflects that the sum is computed in `uint32_t`. -/
theorem c4_dnload_bound_check (g : DfuSt) (req : usb_ctrl_req) (envs : List TickEnv)
    (hidx : req.wIndex = g.intf)
    (htyp : USB_REQ_TYPE req ||| USB_REQ_RCPT req = 0x21)
    (hreq : wRequestAndType req = USB_RT_DFU_DNLOAD)
    (hlen : req.wLength ≠ 0)
    (hallow : dfu_valid_req g.state &&& (1 <<< req.bRequest) ≠ 0)
    (hnof : g.flash.addr_recv + req.wLength < 4294967296) :
    (g.flash.addr_recv + req.wLength > g.flash.addr_end →
      (_dfu_ctrl_req g req envs).resp = FndResp.ERROR ∧
      (_dfu_ctrl_req g req envs).g.state = DState.dfuERROR ∧
      (_dfu_ctrl_req g req envs).g.status = DStatus.errUNKNOWN) ∧
    (g.flash.addr_recv + req.wLength ≤ g.flash.addr_end →
      (_dfu_ctrl_req g req envs).resp = FndResp.SUCCESS ∧
      (_dfu_ctrl_req g req envs).setsDnloadCb = true) := by
  have hu : u32 (g.flash.addr_recv + req.wLength) = g.flash.addr_recv + req.wLength :=
    u32_eq_of_lt hnof
  unfold _dfu_ctrl_req
  rw [if_neg (by omega), if_neg (by rw [htyp]; decide), if_neg (by rw [htyp]; decide),
    if_neg hallow, if_neg (by rw [hreq]; decide),
    if_pos hreq, if_pos hlen]
  dsimp only
  rw [hu]
  constructor
  · intro hgt
    rw [if_pos hgt]
    exact ⟨rfl, rfl, rfl⟩
  · intro hle
    rw [if_neg (by omega)]
    exact ⟨rfl, rfl⟩

/-- Witness for C4 at a concrete state and request: zone end 0x100,
receive cursor 0, a 0x200-byte DNLOAD in `dfuIDLE`. -/
theorem c4_dnload_bound_check_witness :
    (c4st.flash.addr_recv + dnloadReq512.wLength > c4st.flash.addr_end →
      (_dfu_ctrl_req c4st dnloadReq512 []).resp = FndResp.ERROR ∧
      (_dfu_ctrl_req c4st dnloadReq512 []).g.state = DState.dfuERROR ∧
      (_dfu_ctrl_req c4st dnloadReq512 []).g.status = DStatus.errUNKNOWN) ∧
    (c4st.flash.addr_recv + dnloadReq512.wLength ≤ c4st.flash.addr_end →
      (_dfu_ctrl_req c4st dnloadReq512 []).resp = FndResp.SUCCESS ∧
      (_dfu_ctrl_req c4st dnloadReq512 []).setsDnloadCb = true) :=
  c4_dnload_bound_check c4st dnloadReq512 []
    (by decide) (by decide) (by decide) (by decide) (by decide) (by decide)

/-! ### C7 and C10: set-interface and the zone table -/

/-- C7: selecting an alternate setting at most 6 on the DFU interface
(class 0xfe, subclass 0x01, protocol 0x02) succeeds, the machine enters
`dfuIDLE`, all four cursors are loaded with the zone's start, `addr_end`
with the zone's end and `selected` with the zone's chip id — and the zone
table is exactly the seven rows of the source. -/
theorem c7_set_intf_loads_zone (g : DfuSt) (sel : usb_intf_desc)
    (hc : sel.bInterfaceClass = 0xfe) (hs : sel.bInterfaceSubClass = 0x01)
    (hp : sel.bInterfaceProtocol = 0x02) (halt : sel.bAlternateSetting ≤ 6) :
    (∃ z, dfu_zones.get? sel.bAlternateSetting = some z ∧
      _dfu_set_intf g sel = some
        ({ g with state := DState.dfuIDLE,
                  intf := sel.bInterfaceNumber,
                  alt := sel.bAlternateSetting,
                  flash.addr_recv := z.start,
                  flash.addr_read := z.start,
                  flash.addr_prog := z.start,
                  flash.addr_erase := z.start,
                  flash.addr_end := z.zend,
                  flash.selected := z.flashsel }, FndResp.SUCCESS)) ∧
    dfu_zones =
      [ ⟨FLASHCHIP_INTERNAL, 0x00200000, 0x01000000⟩,
        ⟨FLASHCHIP_INTERNAL, 0x00340000, 0x00380000⟩,
        ⟨FLASHCHIP_INTERNAL, 0x00380000, 0x01000000⟩,
        ⟨FLASHCHIP_INTERNAL, 0x00400000, 0x01000000⟩,
        ⟨FLASHCHIP_INTERNAL, 0x00800000, 0x01000000⟩,
        ⟨FLASHCHIP_INTERNAL, 0x00000000, 0x00200000⟩,
        ⟨FLASHCHIP_CART,     0x00000000, 0x00000100⟩ ] := by
  refine ⟨?_, rfl⟩
  have h7 : sel.bAlternateSetting < dfu_zones.length := by
    simp only [dfu_zones, List.length]
    omega
  obtain ⟨z, hz⟩ : ∃ z, dfu_zones.get? sel.bAlternateSetting = some z :=
    ⟨dfu_zones.get ⟨sel.bAlternateSetting, h7⟩, List.get?_eq_get h7⟩
  refine ⟨z, hz, ?_⟩
  unfold _dfu_set_intf
  rw [if_neg (by simp [hc, hs, hp]), hz]

/-- Witness for C7: selecting alternate setting 6 from the freshly
initialized machine loads the cartridge RTC zone. -/
theorem c7_set_intf_loads_zone_witness :
    (∃ z, dfu_zones.get? descAlt6.bAlternateSetting = some z ∧
      _dfu_set_intf dfuInit descAlt6 = some
        ({ dfuInit with
                  state := DState.dfuIDLE,
                  intf := descAlt6.bInterfaceNumber,
                  alt := descAlt6.bAlternateSetting,
                  flash.addr_recv := z.start,
                  flash.addr_read := z.start,
                  flash.addr_prog := z.start,
                  flash.addr_erase := z.start,
                  flash.addr_end := z.zend,
                  flash.selected := z.flashsel }, FndResp.SUCCESS)) ∧
    dfu_zones =
      [ ⟨FLASHCHIP_INTERNAL, 0x00200000, 0x01000000⟩,
        ⟨FLASHCHIP_INTERNAL, 0x00340000, 0x00380000⟩,
        ⟨FLASHCHIP_INTERNAL, 0x00380000, 0x01000000⟩,
        ⟨FLASHCHIP_INTERNAL, 0x00400000, 0x01000000⟩,
        ⟨FLASHCHIP_INTERNAL, 0x00800000, 0x01000000⟩,
        ⟨FLASHCHIP_INTERNAL, 0x00000000, 0x00200000⟩,
        ⟨FLASHCHIP_CART,     0x00000000, 0x00000100⟩ ] :=
  c7_set_intf_loads_zone dfuInit descAlt6 rfl rfl rfl (by decide)

/-- C10: for a descriptor that matches the DFU interface triple, the
unchecked indexing of the 7-entry zone table stays inside the table — the
embedding's error branch is avoided — precisely when the alternate setting
is at most 6. -/
theorem c10_set_intf_index_in_bounds (g : DfuSt) (sel : usb_intf_desc)
    (hc : sel.bInterfaceClass = 0xfe) (hs : sel.bInterfaceSubClass = 0x01)
    (hp : sel.bInterfaceProtocol = 0x02) :
    (_dfu_set_intf g sel).isSome ↔ sel.bAlternateSetting ≤ 6 := by
  unfold _dfu_set_intf
  rw [if_neg (by simp [hc, hs, hp])]
  constructor
  · intro h
    by_contra hgt
    have h7 : dfu_zones.length ≤ sel.bAlternateSetting := by
      simp only [dfu_zones, List.length]
      omega
    rw [List.get?_eq_none.mpr h7] at h
    simp at h
  · intro h
    have h7 : sel.bAlternateSetting < dfu_zones.length := by
      simp only [dfu_zones, List.length]
      omega
    rw [List.get?_eq_get h7]
    simp

/-- Witness for C10 at alternate setting 3 from the initialized machine. -/
theorem c10_set_intf_index_in_bounds_witness :
    (_dfu_set_intf dfuInit descAlt3).isSome ↔ descAlt3.bAlternateSetting ≤ 6 :=
  c10_set_intf_index_in_bounds dfuInit descAlt3 rfl rfl rfl

/-! ### C8 and C9: retry exhaustion -/

/-- C8: a writer tick entered with a pending buffer (a committed slot, and —
when an operation is already underway — a non-busy flash, so that the tick
reaches its body) while the retry counter is 0 goes idle, releases the read
slot (flips `rd`, decrements `used`), invokes the reboot hook, leaves
`addr_prog` unchanged, and issues no erase or page-program command. -/
theorem c8_tick_retry_exhausted (g : DfuSt) (env : TickEnv)
    (hr : g.prog_retry = 0) (h1 : 1 ≤ g.buf.used) (h2 : g.buf.used ≤ 2)
    (hb : g.flash.op = FlOp.FL_IDLE ∨ env.sr &&& 1 = 0) :
    (_dfu_tick g env).1.flash.op = FlOp.FL_IDLE ∧
    (_dfu_tick g env).1.buf.rd = g.buf.rd ^^^ 1 ∧
    (_dfu_tick g env).1.buf.used = g.buf.used - 1 ∧
    Act.reboot ∈ (_dfu_tick g env).2 ∧
    (_dfu_tick g env).1.flash.addr_prog = g.flash.addr_prog ∧
    countActs Act.isEraseOrProgram (_dfu_tick g env).2 = 0 := by
  have hfatal : ∀ g2 : DfuSt, g2.prog_retry = 0 →
      tickBody g2 env = (tickFatal g2, [Act.chipSelect g2.flash.selected, Act.reboot]) := by
    intro g2 h
    unfold tickBody
    rw [if_pos h]
  have hused : u8 (g.buf.used + 255) = g.buf.used - 1 := by
    unfold u8
    omega
  unfold _dfu_tick
  rcases hb with hb | hb
  · rw [if_pos hb, if_pos (by omega),
      hfatal { g with flash.op := FlOp.FL_ERASE, flash.op_len := 4096, flash.op_ofs := 0 } hr]
    unfold tickFatal
    refine ⟨rfl, rfl, hused, by simp, rfl, rfl⟩
  · by_cases hop : g.flash.op = FlOp.FL_IDLE
    · rw [if_pos hop, if_pos (by omega),
        hfatal { g with flash.op := FlOp.FL_ERASE, flash.op_len := 4096, flash.op_ofs := 0 } hr]
      unfold tickFatal
      refine ⟨rfl, rfl, hused, by simp, rfl, rfl⟩
    · rw [if_neg hop, if_neg (by omega)]
      dsimp only
      rw [hfatal g hr]
      unfold tickFatal
      refine ⟨rfl, rfl, hused, by simp, rfl, rfl⟩

/-- Witness for C8: one committed buffer, retry counter 0, writer idle. -/
theorem c8_tick_retry_exhausted_witness :
    (_dfu_tick tickFatalSt ⟨0, 0⟩).1.flash.op = FlOp.FL_IDLE ∧
    (_dfu_tick tickFatalSt ⟨0, 0⟩).1.buf.rd = tickFatalSt.buf.rd ^^^ 1 ∧
    (_dfu_tick tickFatalSt ⟨0, 0⟩).1.buf.used = tickFatalSt.buf.used - 1 ∧
    Act.reboot ∈ (_dfu_tick tickFatalSt ⟨0, 0⟩).2 ∧
    (_dfu_tick tickFatalSt ⟨0, 0⟩).1.flash.addr_prog = tickFatalSt.flash.addr_prog ∧
    countActs Act.isEraseOrProgram (_dfu_tick tickFatalSt ⟨0, 0⟩).2 = 0 :=
  c8_tick_retry_exhausted tickFatalSt ⟨0, 0⟩ (by decide) (by decide) (by decide)
    (Or.inl (by decide))

/-- C9: the fatal branch does not refresh the retry counter.  A tick from an
idle writer with a committed buffer and an exhausted counter releases the
buffer with no verify, erase, program or write-enable command, leaves the
counter at 0 and the writer idle — so the same happens to every subsequently
committed buffer (the commit callback touches neither the counter, the
operation register nor the program cursor, as the second conjunct states). -/
theorem c9_retry_stays_exhausted :
    (∀ (g : DfuSt) (env : TickEnv), g.prog_retry = 0 → g.flash.op = FlOp.FL_IDLE →
      1 ≤ g.buf.used → g.buf.used ≤ 2 →
      countActs Act.isVerifyRead (_dfu_tick g env).2 = 0 ∧
      countActs Act.isEraseOrProgram (_dfu_tick g env).2 = 0 ∧
      countActs Act.isWriteEnable (_dfu_tick g env).2 = 0 ∧
      (_dfu_tick g env).1.buf.used = g.buf.used - 1 ∧
      (_dfu_tick g env).1.buf.rd = g.buf.rd ^^^ 1 ∧
      Act.reboot ∈ (_dfu_tick g env).2 ∧
      (_dfu_tick g env).1.prog_retry = 0 ∧
      (_dfu_tick g env).1.flash.op = FlOp.FL_IDLE) ∧
    (∀ g : DfuSt, (_dfu_dnload_done_cb g).prog_retry = g.prog_retry ∧
      (_dfu_dnload_done_cb g).flash.op = g.flash.op ∧
      (_dfu_dnload_done_cb g).flash.addr_prog = g.flash.addr_prog) := by
  constructor
  · intro g env hr hop h1 h2
    have hused : u8 (g.buf.used + 255) = g.buf.used - 1 := by
      unfold u8
      omega
    unfold _dfu_tick
    rw [if_pos hop, if_pos (by omega)]
    unfold tickBody
    rw [if_pos (by exact hr)]
    unfold tickFatal
    exact ⟨rfl, rfl, rfl, hused, rfl, by simp, hr, rfl⟩
  · intro g
    exact ⟨rfl, rfl, rfl⟩

/-- Witness for C9 at the concrete exhausted state. -/
theorem c9_retry_stays_exhausted_witness :
    countActs Act.isVerifyRead (_dfu_tick tickFatalSt ⟨0, 3⟩).2 = 0 ∧
    countActs Act.isEraseOrProgram (_dfu_tick tickFatalSt ⟨0, 3⟩).2 = 0 ∧
    countActs Act.isWriteEnable (_dfu_tick tickFatalSt ⟨0, 3⟩).2 = 0 ∧
    (_dfu_tick tickFatalSt ⟨0, 3⟩).1.buf.used = tickFatalSt.buf.used - 1 ∧
    (_dfu_tick tickFatalSt ⟨0, 3⟩).1.buf.rd = tickFatalSt.buf.rd ^^^ 1 ∧
    Act.reboot ∈ (_dfu_tick tickFatalSt ⟨0, 3⟩).2 ∧
    (_dfu_tick tickFatalSt ⟨0, 3⟩).1.prog_retry = 0 ∧
    (_dfu_tick tickFatalSt ⟨0, 3⟩).1.flash.op = FlOp.FL_IDLE :=
  c9_retry_stays_exhausted.1 tickFatalSt ⟨0, 3⟩ (by decide) (by decide) (by decide) (by decide)

/-! ### C5: GETSTATUS reporting -/

/-- The erase section never touches the DFU protocol state or status. -/
theorem erasePhase_preserves_state (g : DfuSt) (env : TickEnv) :
    (erasePhase g env).1.state = g.state ∧ (erasePhase g env).1.status = g.status := by
  unfold erasePhase
  split_ifs <;> exact ⟨rfl, rfl⟩

/-- The program section never touches the DFU protocol state or status. -/
theorem programPhase_preserves_state (g : DfuSt) :
    (programPhase g).1.state = g.state ∧ (programPhase g).1.status = g.status := by
  unfold programPhase
  split_ifs <;> exact ⟨rfl, rfl⟩

/-- The tick body never touches the DFU protocol state or status. -/
theorem tickBody_preserves_state (g : DfuSt) (env : TickEnv) :
    (tickBody g env).1.state = g.state ∧ (tickBody g env).1.status = g.status := by
  unfold tickBody
  split_ifs
  · exact ⟨rfl, rfl⟩
  · dsimp only
    obtain ⟨p1, p2⟩ := programPhase_preserves_state (erasePhase g env).1
    obtain ⟨e1, e2⟩ := erasePhase_preserves_state g env
    exact ⟨p1.trans e1, p2.trans e2⟩

/-- A writer tick never touches the DFU protocol state or status. -/
theorem tick_preserves_state (g : DfuSt) (env : TickEnv) :
    (_dfu_tick g env).1.state = g.state ∧ (_dfu_tick g env).1.status = g.status := by
  unfold _dfu_tick
  split_ifs
  · exact tickBody_preserves_state
      { g with flash.op := FlOp.FL_ERASE, flash.op_len := 4096, flash.op_ofs := 0 } env
  · exact ⟨rfl, rfl⟩
  · exact ⟨rfl, rfl⟩
  · exact tickBody_preserves_state g env

/-- The synchronous writer pump never touches the DFU protocol state or
status. -/
theorem drain_preserves_state (envs : List TickEnv) :
    ∀ g : DfuSt, (drain envs g).state = g.state ∧ (drain envs g).status = g.status := by
  induction envs with
  | nil => intro g; exact ⟨rfl, rfl⟩
  | cons e es ih =>
    intro g
    unfold drain
    split
    · exact ⟨rfl, rfl⟩
    · obtain ⟨h1, h2⟩ := ih (_dfu_tick g e).1
      obtain ⟨t1, t2⟩ := tick_preserves_state g e
      exact ⟨h1.trans t1, h2.trans t2⟩

/-- C5: GETSTATUS (addressed to the DFU interface as a class request, in a
state that allows it): from `dfuDNLOAD_SYNC` with `used < 2` it transitions
to and reports `dfuDNLOAD_IDLE`; from `dfuDNLOAD_SYNC` with `used = 2` it
reports `dfuDNBUSY` without transitioning; from `dfuMANIFEST_SYNC` it
transitions to `dfuIDLE`, synchronously pumps the writer while `used` is
non-zero, and reports `dfuIDLE`; from every other state it reports the
current state and changes nothing. -/
theorem c5_getstatus_report (g : DfuSt) (req : usb_ctrl_req) (envs : List TickEnv)
    (hidx : req.wIndex = g.intf)
    (htyp : USB_REQ_TYPE req ||| USB_REQ_RCPT req = 0x21)
    (hreq : wRequestAndType req = USB_RT_DFU_GETSTATUS)
    (hallow : dfu_valid_req g.state &&& (1 <<< req.bRequest) ≠ 0) :
    (g.state = DState.dfuDNLOAD_SYNC → g.buf.used < 2 →
      (_dfu_ctrl_req g req envs).g = { g with state := DState.dfuDNLOAD_IDLE } ∧
      (_dfu_ctrl_req g req envs).data =
        [g.status.code, 5, 0, 0, DState.dfuDNLOAD_IDLE.code, 0] ∧
      (_dfu_ctrl_req g req envs).resp = FndResp.SUCCESS) ∧
    (g.state = DState.dfuDNLOAD_SYNC → ¬ g.buf.used < 2 →
      (_dfu_ctrl_req g req envs).g = g ∧
      (_dfu_ctrl_req g req envs).data =
        [g.status.code, 5, 0, 0, DState.dfuDNBUSY.code, 0]) ∧
    (g.state = DState.dfuMANIFEST_SYNC →
      (_dfu_ctrl_req g req envs).g = drain envs { g with state := DState.dfuIDLE } ∧
      (_dfu_ctrl_req g req envs).g.state = DState.dfuIDLE ∧
      (_dfu_ctrl_req g req envs).data =
        [g.status.code, 5, 0, 0, DState.dfuIDLE.code, 0]) ∧
    (g.state ≠ DState.dfuDNLOAD_SYNC → g.state ≠ DState.dfuMANIFEST_SYNC →
      (_dfu_ctrl_req g req envs).g = g ∧
      (_dfu_ctrl_req g req envs).data =
        [g.status.code, 5, 0, 0, g.state.code, 0]) := by
  have hmain : _dfu_ctrl_req g req envs = ctrlGetStatus g envs := by
    unfold _dfu_ctrl_req
    rw [if_neg (by omega), if_neg (by rw [htyp]; decide), if_neg (by rw [htyp]; decide),
      if_neg hallow, if_neg (by rw [hreq]; decide),
      if_neg (by rw [hreq]; decide), if_neg (by rw [hreq]; decide), if_pos hreq]
  rw [hmain]
  unfold ctrlGetStatus
  refine ⟨?_, ?_, ?_, ?_⟩
  · intro hst hu
    rw [if_pos hst, if_pos hu]
    exact ⟨rfl, rfl, rfl⟩
  · intro hst hu
    rw [if_pos hst, if_neg hu]
    exact ⟨rfl, rfl⟩
  · intro hst
    rw [if_neg (by rw [hst]; decide), if_pos hst]
    dsimp only
    obtain ⟨h1, h2⟩ := drain_preserves_state envs { g with state := DState.dfuIDLE }
    exact ⟨rfl, h1, by rw [h2]; rfl⟩
  · intro hs1 hs2
    rw [if_neg hs1, if_neg hs2]
    exact ⟨rfl, rfl⟩

/-- Witness for C5: GETSTATUS from `dfuMANIFEST_SYNC` with an empty pipeline
reports `dfuIDLE`. -/
theorem c5_getstatus_report_witness :
    ({ dfuInit with state := DState.dfuMANIFEST_SYNC }.state = DState.dfuDNLOAD_SYNC →
      { dfuInit with state := DState.dfuMANIFEST_SYNC }.buf.used < 2 →
      (_dfu_ctrl_req { dfuInit with state := DState.dfuMANIFEST_SYNC } getStatusReq []).g =
        { { dfuInit with state := DState.dfuMANIFEST_SYNC } with
            state := DState.dfuDNLOAD_IDLE } ∧
      (_dfu_ctrl_req { dfuInit with state := DState.dfuMANIFEST_SYNC } getStatusReq []).data =
        [{ dfuInit with state := DState.dfuMANIFEST_SYNC }.status.code, 5, 0, 0,
          DState.dfuDNLOAD_IDLE.code, 0] ∧
      (_dfu_ctrl_req { dfuInit with state := DState.dfuMANIFEST_SYNC } getStatusReq []).resp =
        FndResp.SUCCESS) ∧
    ({ dfuInit with state := DState.dfuMANIFEST_SYNC }.state = DState.dfuDNLOAD_SYNC →
      ¬ { dfuInit with state := DState.dfuMANIFEST_SYNC }.buf.used < 2 →
      (_dfu_ctrl_req { dfuInit with state := DState.dfuMANIFEST_SYNC } getStatusReq []).g =
        { dfuInit with state := DState.dfuMANIFEST_SYNC } ∧
      (_dfu_ctrl_req { dfuInit with state := DState.dfuMANIFEST_SYNC } getStatusReq []).data =
        [{ dfuInit with state := DState.dfuMANIFEST_SYNC }.status.code, 5, 0, 0,
          DState.dfuDNBUSY.code, 0]) ∧
    ({ dfuInit with state := DState.dfuMANIFEST_SYNC }.state = DState.dfuMANIFEST_SYNC →
      (_dfu_ctrl_req { dfuInit with state := DState.dfuMANIFEST_SYNC } getStatusReq []).g =
        drain [] { { dfuInit with state := DState.dfuMANIFEST_SYNC } with
            state := DState.dfuIDLE } ∧
      (_dfu_ctrl_req { dfuInit with state := DState.dfuMANIFEST_SYNC } getStatusReq []).g.state =
        DState.dfuIDLE ∧
      (_dfu_ctrl_req { dfuInit with state := DState.dfuMANIFEST_SYNC } getStatusReq []).data =
        [{ dfuInit with state := DState.dfuMANIFEST_SYNC }.status.code, 5, 0, 0,
          DState.dfuIDLE.code, 0]) ∧
    ({ dfuInit with state := DState.dfuMANIFEST_SYNC }.state ≠ DState.dfuDNLOAD_SYNC →
      { dfuInit with state := DState.dfuMANIFEST_SYNC }.state ≠ DState.dfuMANIFEST_SYNC →
      (_dfu_ctrl_req { dfuInit with state := DState.dfuMANIFEST_SYNC } getStatusReq []).g =
        { dfuInit with state := DState.dfuMANIFEST_SYNC } ∧
      (_dfu_ctrl_req { dfuInit with state := DState.dfuMANIFEST_SYNC } getStatusReq []).data =
        [{ dfuInit with state := DState.dfuMANIFEST_SYNC }.status.code, 5, 0, 0,
          { dfuInit with state := DState.dfuMANIFEST_SYNC }.state.code, 0]) :=
  c5_getstatus_report { dfuInit with state := DState.dfuMANIFEST_SYNC } getStatusReq []
    (by decide) (by decide) (by decide) (by decide)

/-! ### Case-split descriptions of the tick phases -/

theorem xor_one_of_le {w : Nat} (h : w ≤ 1) : w ^^^ 1 = 1 - w := by
  interval_cases w <;> decide

/-- Exhaustive description of the erase section's effect on the state. -/
theorem erasePhase_split (g : DfuSt) (env : TickEnv) :
    ((erasePhase g env).1 = g ∧ g.flash.op ≠ FlOp.FL_ERASE) ∨
    (g.flash.op = FlOp.FL_ERASE ∧
      (erasePhase g env).1 = { g with
        should := env.should,
        flash.addr_erase := u32 (g.flash.addr_prog + ERASE_SIZE_KB * 1024),
        flash.op := FlOp.FL_PROGRAM }) ∨
    (g.flash.op = FlOp.FL_ERASE ∧
      (erasePhase g env).1 = { g with
        should := env.should,
        prog_retry := if g.prog_retry ≠ 0 then g.prog_retry - 1 else g.prog_retry,
        flash.addr_erase := u32 (g.flash.addr_prog + 4096) }) := by
  unfold erasePhase
  by_cases h1 : g.flash.op = FlOp.FL_ERASE
  · rw [if_pos h1]
    by_cases h2 : env.should &&& 1 = 0
    · rw [if_pos h2]
      exact Or.inr (Or.inl ⟨h1, by rfl⟩)
    · rw [if_neg h2]
      exact Or.inr (Or.inr ⟨h1, by rfl⟩)
  · rw [if_neg h1]
    exact Or.inl ⟨rfl, h1⟩

/-- Exhaustive description of the program section's effect on the state. -/
theorem programPhase_split (g : DfuSt) :
    ((programPhase g).1 = g) ∨
    (g.flash.op = FlOp.FL_PROGRAM ∧
      (programPhase g).1 = { g with
        prog_retry := PROG_RETRY,
        flash.addr_prog := u32 (g.flash.addr_prog + g.flash.op_len),
        buf.rd := g.buf.rd ^^^ 1,
        buf.used := u8 (g.buf.used + 255),
        flash.op := FlOp.FL_IDLE }) ∨
    (g.flash.op = FlOp.FL_PROGRAM ∧
      (programPhase g).1 = { g with
        prog_retry := if g.prog_retry ≠ 0 then g.prog_retry - 1 else g.prog_retry,
        flash.op_len := 4096,
        flash.op_ofs := 0,
        flash.op := FlOp.FL_IDLE }) ∨
    (g.flash.op = FlOp.FL_PROGRAM ∧
      ∃ l, (programPhase g).1 = { g with flash.op_ofs := g.flash.op_ofs + l }) := by
  unfold programPhase
  by_cases h1 : g.flash.op = FlOp.FL_PROGRAM
  · rw [if_pos h1]
    by_cases h2 : g.should &&& 2 = 0
    · rw [if_pos h2]
      exact Or.inr (Or.inl ⟨h1, by rfl⟩)
    · rw [if_neg h2]
      by_cases h3 : g.flash.op_ofs = g.flash.op_len
      · rw [if_pos h3]
        exact Or.inr (Or.inr (Or.inl ⟨h1, by rfl⟩))
      · rw [if_neg h3]
        exact Or.inr (Or.inr (Or.inr ⟨h1, _, by rfl⟩))
  · rw [if_neg h1]
    exact Or.inl rfl

/-! ### C6: double-buffer occupancy invariant -/

theorem erasePhase_inv6 (g : DfuSt) (env : TickEnv) (h : Inv6 g) :
    Inv6 (erasePhase g env).1 := by
  obtain ⟨h1, h2, h3, h4, h5⟩ := h
  rcases erasePhase_split g env with ⟨he, -⟩ | ⟨hop, he⟩ | ⟨hop, he⟩
  · rw [he]
    exact ⟨h1, h2, h3, h4, h5⟩
  · rw [he]
    exact ⟨h1, h2, h3, h4, fun _ => h5 (by simp [hop])⟩
  · rw [he]
    exact ⟨h1, h2, h3, h4, fun _ => h5 (by simp [hop])⟩

theorem programPhase_inv6 (g : DfuSt) (h : Inv6 g) : Inv6 (programPhase g).1 := by
  obtain ⟨h1, h2, h3, h4, h5⟩ := h
  rcases programPhase_split g with he | ⟨hop, he⟩ | ⟨hop, he⟩ | ⟨hop, ⟨l, he⟩⟩ <;> rw [he]
  · exact ⟨h1, h2, h3, h4, h5⟩
  · have hu : 1 ≤ g.buf.used := h5 (by simp [hop])
    unfold Inv6
    refine ⟨h1, ?_, ?_, ?_, fun hx => absurd rfl hx⟩
    · show g.buf.rd ^^^ 1 ≤ 1
      rw [xor_one_of_le h2]
      omega
    · show u8 (g.buf.used + 255) ≤ 2
      unfold u8
      omega
    · show (g.buf.wr + (g.buf.rd ^^^ 1) + u8 (g.buf.used + 255)) % 2 = 0
      rw [xor_one_of_le h2]
      unfold u8
      omega
  · exact ⟨h1, h2, h3, h4, fun hx => absurd rfl hx⟩
  · exact ⟨h1, h2, h3, h4, fun _ => h5 (by simp [hop])⟩

theorem tickBody_inv6 (g : DfuSt) (env : TickEnv) (h : Inv6 g)
    (hop : g.flash.op ≠ FlOp.FL_IDLE) : Inv6 (tickBody g env).1 := by
  have hu : 1 ≤ g.buf.used := h.2.2.2.2 hop
  obtain ⟨h1, h2, h3, h4, h5⟩ := h
  unfold tickBody
  split_ifs
  · unfold tickFatal Inv6
    refine ⟨h1, ?_, ?_, ?_, fun hx => absurd rfl hx⟩
    · show g.buf.rd ^^^ 1 ≤ 1
      rw [xor_one_of_le h2]
      omega
    · show u8 (g.buf.used + 255) ≤ 2
      unfold u8
      omega
    · show (g.buf.wr + (g.buf.rd ^^^ 1) + u8 (g.buf.used + 255)) % 2 = 0
      rw [xor_one_of_le h2]
      unfold u8
      omega
  · dsimp only
    exact programPhase_inv6 _ (erasePhase_inv6 g env ⟨h1, h2, h3, h4, h5⟩)

theorem tick_inv6 (g : DfuSt) (env : TickEnv) (h : Inv6 g) : Inv6 (_dfu_tick g env).1 := by
  obtain ⟨h1, h2, h3, h4, h5⟩ := h
  unfold _dfu_tick
  split_ifs with ha hb hc
  · refine tickBody_inv6 _ env ⟨h1, h2, h3, h4, fun _ => ?_⟩ (by simp)
    show 1 ≤ g.buf.used
    omega
  · exact ⟨h1, h2, h3, h4, h5⟩
  · exact ⟨h1, h2, h3, h4, h5⟩
  · exact tickBody_inv6 g env ⟨h1, h2, h3, h4, h5⟩ ha

theorem commit_inv6 (g : DfuSt) (h : Inv6 g) (hu : g.buf.used < 2) :
    Inv6 (_dfu_dnload_done_cb g) := by
  obtain ⟨h1, h2, h3, h4, h5⟩ := h
  unfold _dfu_dnload_done_cb Inv6
  refine ⟨?_, h2, ?_, ?_, ?_⟩
  · show g.buf.wr ^^^ 1 ≤ 1
    rw [xor_one_of_le h1]
    omega
  · show u8 (g.buf.used + 1) ≤ 2
    unfold u8
    omega
  · show ((g.buf.wr ^^^ 1) + g.buf.rd + u8 (g.buf.used + 1)) % 2 = 0
    rw [xor_one_of_le h1]
    unfold u8
    omega
  · intro hx
    show 1 ≤ u8 (g.buf.used + 1)
    unfold u8
    omega

theorem reach6_inv6 {g : DfuSt} (h : Reach6 g) : Inv6 g := by
  induction h with
  | init => refine ⟨?_, ?_, ?_, ?_, ?_⟩ <;> decide
  | commit hr hu ih => exact commit_inv6 _ ih hu
  | tick env _ ih => exact tick_inv6 _ env ih

/-- C6: along every trace of DNLOAD commit callbacks (delivered only while
`used < 2`) and writer ticks from the initialized state, the occupancy is 0,
1 or 2, the slot indices coincide at occupancy 0 and 2, and differ at
occupancy 1.  (A release is only ever performed with `used ≥ 1`, which the
invariant on the operation register guarantees.) -/
theorem c6_double_buffer_invariant (g : DfuSt) (h : Reach6 g) :
    (g.buf.used = 0 ∨ g.buf.used = 1 ∨ g.buf.used = 2) ∧
    (g.buf.used = 0 → g.buf.wr = g.buf.rd) ∧
    (g.buf.used = 2 → g.buf.wr = g.buf.rd) ∧
    (g.buf.used = 1 → g.buf.wr ≠ g.buf.rd) := by
  obtain ⟨h1, h2, h3, h4, -⟩ := reach6_inv6 h
  refine ⟨by omega, by omega, by omega, by omega⟩

/-- Witness for C6 at the initial state. -/
theorem c6_double_buffer_invariant_witness :
    (dfuInit.buf.used = 0 ∨ dfuInit.buf.used = 1 ∨ dfuInit.buf.used = 2) ∧
    (dfuInit.buf.used = 0 → dfuInit.buf.wr = dfuInit.buf.rd) ∧
    (dfuInit.buf.used = 2 → dfuInit.buf.wr = dfuInit.buf.rd) ∧
    (dfuInit.buf.used = 1 → dfuInit.buf.wr ≠ dfuInit.buf.rd) :=
  c6_double_buffer_invariant dfuInit Reach6.init

/-! ### C3: cursor ordering -/

/-- C3 counterexample: the source adds `wLength` to `addr_recv` before the
bound check and does not undo the addition when it rejects the request.
After selecting alternate setting 6 (zone end 0x100) and sending a rejected
0x200-byte DNLOAD, `addr_recv` exceeds `addr_end`: the claimed ordering does
not survive a rejected DNLOAD. -/
theorem c3_recv_exceeds_end_after_reject :
    (_dfu_ctrl_req stAlt6 dnloadReq512 []).resp = FndResp.ERROR ∧
    (_dfu_ctrl_req stAlt6 dnloadReq512 []).g.state = DState.dfuERROR ∧
    ¬ (_dfu_ctrl_req stAlt6 dnloadReq512 []).g.flash.addr_recv ≤
        (_dfu_ctrl_req stAlt6 dnloadReq512 []).g.flash.addr_end := by
  decide

theorem erasePhase_inv3 (g : DfuSt) (env : TickEnv) (p : Bool) (h : Inv3 g p) :
    Inv3 (erasePhase g env).1 p := by
  obtain ⟨hA, hB, hC, hD, hE⟩ := h
  rcases erasePhase_split g env with ⟨he, -⟩ | ⟨hop, he⟩ | ⟨hop, he⟩
  · rw [he]
    exact ⟨hA, hB, hC, hD, hE⟩
  · rw [he]
    exact ⟨hA, hB, hC, hD, fun _ => hE (by simp [hop])⟩
  · rw [he]
    exact ⟨hA, hB, hC, hD, fun _ => hE (by simp [hop])⟩

theorem programPhase_inv3 (g : DfuSt) (p : Bool) (h : Inv3 g p) :
    Inv3 (programPhase g).1 p := by
  obtain ⟨hA, hB, hC, hD, hE⟩ := h
  rcases programPhase_split g with he | ⟨hop, he⟩ | ⟨hop, he⟩ | ⟨hop, l, he⟩
  · rw [he]
    exact ⟨hA, hB, hC, hD, hE⟩
  · obtain ⟨hu, hol⟩ := hE (by simp [hop])
    rw [he]
    unfold Inv3
    refine ⟨?_, hB, hC, ?_, fun hx => absurd rfl hx⟩
    · show u32 (g.flash.addr_prog + g.flash.op_len) + 4096 * u8 (g.buf.used + 255) +
        padOf p ≤ g.flash.addr_recv
      rw [hol]
      unfold u32 u8
      omega
    · show u8 (g.buf.used + 255) ≤ 2
      unfold u8
      omega
  · rw [he]
    exact ⟨hA, hB, hC, hD, fun hx => absurd rfl hx⟩
  · rw [he]
    exact ⟨hA, hB, hC, hD, fun _ => hE (by simp [hop])⟩

theorem tickBody_inv3 (g : DfuSt) (env : TickEnv) (p : Bool) (h : Inv3 g p)
    (hop : g.flash.op ≠ FlOp.FL_IDLE) : Inv3 (tickBody g env).1 p := by
  obtain ⟨hA, hB, hC, hD, hE⟩ := h
  obtain ⟨hu, hol⟩ := hE hop
  unfold tickBody
  split_ifs
  · unfold tickFatal Inv3
    refine ⟨?_, hB, hC, ?_, fun hx => absurd rfl hx⟩
    · show g.flash.addr_prog + 4096 * u8 (g.buf.used + 255) + padOf p ≤ g.flash.addr_recv
      unfold u8
      omega
    · show u8 (g.buf.used + 255) ≤ 2
      unfold u8
      omega
  · dsimp only
    exact programPhase_inv3 _ p (erasePhase_inv3 g env p ⟨hA, hB, hC, hD, hE⟩)

theorem tick_inv3 (g : DfuSt) (env : TickEnv) (p : Bool) (h : Inv3 g p) :
    Inv3 (_dfu_tick g env).1 p := by
  obtain ⟨hA, hB, hC, hD, hE⟩ := h
  unfold _dfu_tick
  split_ifs with ha hb hc
  · refine tickBody_inv3 _ env p ⟨hA, hB, hC, hD, fun _ => ⟨?_, rfl⟩⟩ (by simp)
    show 1 ≤ g.buf.used
    omega
  · exact ⟨hA, hB, hC, hD, hE⟩
  · exact ⟨hA, hB, hC, hD, hE⟩
  · exact tickBody_inv3 g env p ⟨hA, hB, hC, hD, hE⟩ ha

theorem drain_inv3 (envs : List TickEnv) :
    ∀ (g : DfuSt) (p : Bool), Inv3 g p → Inv3 (drain envs g) p := by
  induction envs with
  | nil => intro g p h; exact h
  | cons e es ih =>
    intro g p h
    unfold drain
    split
    · exact h
    · exact ih _ p (tick_inv3 g e p h)

theorem ctrlGetStatus_inv3 (g : DfuSt) (envs : List TickEnv) (p : Bool) (h : Inv3 g p) :
    Inv3 (ctrlGetStatus g envs).g p := by
  obtain ⟨hA, hB, hC, hD, hE⟩ := h
  unfold ctrlGetStatus
  dsimp only
  split_ifs
  · exact ⟨hA, hB, hC, hD, hE⟩
  · exact ⟨hA, hB, hC, hD, hE⟩
  · exact drain_inv3 envs _ p ⟨hA, hB, hC, hD, hE⟩
  · exact ⟨hA, hB, hC, hD, hE⟩

/-- Exhaustive description of the control-request handler for the cursor
invariant: either the handler leaves the write-side cursors, the buffer and
the writer untouched and installs no commit callback; or it is a DNLOAD data
transfer, which bumps `addr_recv` and either rejects (no callback) or
accepts (callback installed); or it is a GETSTATUS. -/
theorem ctrl_split (g : DfuSt) (req : usb_ctrl_req) (envs : List TickEnv) :
    ((_dfu_ctrl_req g req envs).setsDnloadCb = false ∧
     (_dfu_ctrl_req g req envs).g.flash.addr_recv = g.flash.addr_recv ∧
     (_dfu_ctrl_req g req envs).g.flash.addr_prog = g.flash.addr_prog ∧
     (_dfu_ctrl_req g req envs).g.flash.addr_end = g.flash.addr_end ∧
     (_dfu_ctrl_req g req envs).g.flash.op = g.flash.op ∧
     (_dfu_ctrl_req g req envs).g.flash.op_len = g.flash.op_len ∧
     (_dfu_ctrl_req g req envs).g.buf = g.buf) ∨
    (wRequestAndType req = USB_RT_DFU_DNLOAD ∧ req.wLength ≠ 0 ∧
      ((u32 (g.flash.addr_recv + req.wLength) > g.flash.addr_end ∧
        (_dfu_ctrl_req g req envs).setsDnloadCb = false ∧
        (_dfu_ctrl_req g req envs).g = { g with
          flash.addr_recv := u32 (g.flash.addr_recv + req.wLength),
          state := DState.dfuERROR, status := DStatus.errUNKNOWN }) ∨
       (¬ u32 (g.flash.addr_recv + req.wLength) > g.flash.addr_end ∧
        (_dfu_ctrl_req g req envs).setsDnloadCb = true ∧
        (_dfu_ctrl_req g req envs).g = { g with
          flash.addr_recv := u32 (g.flash.addr_recv + req.wLength) }))) ∨
    (_dfu_ctrl_req g req envs = ctrlGetStatus g envs) := by
  unfold _dfu_ctrl_req ctrlError
  by_cases h1 : req.wIndex ≠ g.intf
  · rw [if_pos h1]
    exact Or.inl ⟨rfl, rfl, rfl, rfl, rfl, rfl, rfl⟩
  rw [if_neg h1]
  by_cases h2 : USB_REQ_TYPE req ||| USB_REQ_RCPT req =
      USB_REQ_TYPE_VENDOR ||| USB_REQ_RCPT_INTF
  · rw [if_pos h2]
    exact Or.inl ⟨rfl, rfl, rfl, rfl, rfl, rfl, rfl⟩
  rw [if_neg h2]
  by_cases h3 : USB_REQ_TYPE req ||| USB_REQ_RCPT req ≠
      USB_REQ_TYPE_CLASS ||| USB_REQ_RCPT_INTF
  · rw [if_pos h3]
    exact Or.inl ⟨rfl, rfl, rfl, rfl, rfl, rfl, rfl⟩
  rw [if_neg h3]
  by_cases h4 : dfu_valid_req g.state &&& (1 <<< req.bRequest) = 0
  · rw [if_pos h4]
    exact Or.inl ⟨rfl, rfl, rfl, rfl, rfl, rfl, rfl⟩
  rw [if_neg h4]
  by_cases h5 : wRequestAndType req = USB_RT_DFU_DETACH
  · rw [if_pos h5]
    exact Or.inl ⟨rfl, rfl, rfl, rfl, rfl, rfl, rfl⟩
  rw [if_neg h5]
  by_cases h6 : wRequestAndType req = USB_RT_DFU_DNLOAD
  · rw [if_pos h6]
    by_cases h7 : req.wLength ≠ 0
    · rw [if_pos h7]
      dsimp only
      by_cases h8 : u32 (g.flash.addr_recv + req.wLength) > g.flash.addr_end
      · rw [if_pos h8]
        exact Or.inr (Or.inl ⟨h6, h7, Or.inl ⟨h8, rfl, by rfl⟩⟩)
      · rw [if_neg h8]
        exact Or.inr (Or.inl ⟨h6, h7, Or.inr ⟨h8, rfl, by rfl⟩⟩)
    · rw [if_neg h7]
      exact Or.inl ⟨rfl, rfl, rfl, rfl, rfl, rfl, rfl⟩
  rw [if_neg h6]
  by_cases h9 : wRequestAndType req = USB_RT_DFU_UPLOAD
  · rw [if_pos h9]
    exact Or.inl ⟨rfl, rfl, rfl, rfl, rfl, rfl, rfl⟩
  rw [if_neg h9]
  by_cases h10 : wRequestAndType req = USB_RT_DFU_GETSTATUS
  · rw [if_pos h10]
    exact Or.inr (Or.inr rfl)
  · rw [if_neg h10]
    by_cases h11 : wRequestAndType req = USB_RT_DFU_CLRSTATUS
    · rw [if_pos h11]
      exact Or.inl ⟨rfl, rfl, rfl, rfl, rfl, rfl, rfl⟩
    rw [if_neg h11]
    by_cases h12 : wRequestAndType req = USB_RT_DFU_GETSTATE
    · rw [if_pos h12]
      exact Or.inl ⟨rfl, rfl, rfl, rfl, rfl, rfl, rfl⟩
    rw [if_neg h12]
    by_cases h13 : wRequestAndType req = USB_RT_DFU_ABORT
    · rw [if_pos h13]
      exact Or.inl ⟨rfl, rfl, rfl, rfl, rfl, rfl, rfl⟩
    · rw [if_neg h13]
      exact Or.inl ⟨rfl, rfl, rfl, rfl, rfl, rfl, rfl⟩

theorem ctrl_inv3 (g : DfuSt) (req : usb_ctrl_req) (envs : List TickEnv)
    (h : Inv3 g false)
    (hg : wRequestAndType req = USB_RT_DFU_DNLOAD → req.wLength ≠ 0 →
      req.wLength = 4096 ∧ g.flash.addr_recv + 4096 ≤ g.flash.addr_end) :
    Inv3 (_dfu_ctrl_req g req envs).g (_dfu_ctrl_req g req envs).setsDnloadCb := by
  obtain ⟨hA, hB, hC, hD, hE⟩ := h
  rcases ctrl_split g req envs with
    ⟨hcb, e1, e2, e3, e4, e5, e6⟩ | ⟨hdn, hw, hcase⟩ | hgs
  · rw [hcb]
    unfold Inv3
    rw [e1, e2, e3, e4, e5, e6]
    exact ⟨hA, hB, hC, hD, hE⟩
  · obtain ⟨hw4096, hbound⟩ := hg hdn hw
    have hu32 : u32 (g.flash.addr_recv + req.wLength) = g.flash.addr_recv + 4096 := by
      rw [hw4096]
      exact u32_eq_of_lt (by omega)
    rcases hcase with ⟨hgt, -, -⟩ | ⟨hle, hcb, he⟩
    · rw [hu32] at hgt
      omega
    · rw [hcb, he]
      unfold Inv3
      refine ⟨?_, ?_, hC, hD, hE⟩
      · show g.flash.addr_prog + 4096 * g.buf.used + padOf true ≤
          u32 (g.flash.addr_recv + req.wLength)
        rw [hu32]
        have hA0 : g.flash.addr_prog + 4096 * g.buf.used + 0 ≤ g.flash.addr_recv := hA
        have hp : padOf true = 4096 := rfl
        omega
      · show u32 (g.flash.addr_recv + req.wLength) ≤ g.flash.addr_end
        rw [hu32]
        omega
  · rw [hgs]
    have hcb : (ctrlGetStatus g envs).setsDnloadCb = false := rfl
    rw [hcb]
    exact ctrlGetStatus_inv3 g envs false ⟨hA, hB, hC, hD, hE⟩

/-- Rows of the zone table are well-formed: start below end, end within
32 bits. -/
theorem zone_bounds (z : DfuZone) (hz : z ∈ dfu_zones) :
    z.start ≤ z.zend ∧ z.zend < 4294967296 := by
  fin_cases hz <;> exact ⟨by norm_num, by norm_num⟩

theorem set_intf_inv3 (g : DfuSt) (sel : usb_intf_desc) (g2 : DfuSt) (r : FndResp)
    (h : Inv3 g false) (hused : g.buf.used = 0) (hop : g.flash.op = FlOp.FL_IDLE)
    (hs : _dfu_set_intf g sel = some (g2, r)) : Inv3 g2 false := by
  obtain ⟨hA, hB, hC, hD, hE⟩ := h
  unfold _dfu_set_intf at hs
  split_ifs at hs with h1
  · obtain ⟨rfl, -⟩ : g = g2 ∧ FndResp.CONTINUE = r := by
      injection hs with hs2
      injection hs2 with hl hr
      exact ⟨hl, hr⟩
    exact ⟨hA, hB, hC, hD, hE⟩
  · cases hz : dfu_zones.get? sel.bAlternateSetting with
    | none => rw [hz] at hs; cases hs
    | some z =>
      rw [hz] at hs
      obtain ⟨hzs, hze⟩ := zone_bounds z (List.get?_mem hz)
      obtain ⟨hg2, -⟩ : _ = g2 ∧ FndResp.SUCCESS = r := by
        injection hs with hs2
        injection hs2 with hl hr
        exact ⟨hl, hr⟩
      rw [← hg2]
      unfold Inv3
      refine ⟨?_, hzs, hze, ?_, ?_⟩
      · show z.start + 4096 * g.buf.used + padOf false ≤ z.start
        rw [hused]
        show z.start + 0 + 0 ≤ z.start
        omega
      · show g.buf.used ≤ 2
        omega
      · intro hx
        exact absurd hop hx

/-- Every reachable state of the restricted machine satisfies the cursor
invariant. -/
theorem reach3_inv3 {g : DfuSt} {p : Bool} (h : Reach3 g p) : Inv3 g p := by
  induction h with
  | init => exact ⟨by decide, by decide, by decide, by decide, fun hx => absurd rfl hx⟩
  | configured hr ih =>
    unfold _dfu_state_chg
    rw [if_pos rfl]
    exact ih
  | set_intf hr hused hop hs ih => exact set_intf_inv3 _ _ _ _ ih hused hop hs
  | ctrl req envs hr hg ih => exact ctrl_inv3 _ req envs ih hg
  | commit hr hu ih =>
    rename_i g1
    obtain ⟨hA, hB, hC, hD, hE⟩ := ih
    unfold _dfu_dnload_done_cb Inv3
    refine ⟨?_, hB, hC, ?_, ?_⟩
    · show g1.flash.addr_prog + 4096 * u8 (g1.buf.used + 1) + padOf false ≤
        g1.flash.addr_recv
      have hA4 : g1.flash.addr_prog + 4096 * g1.buf.used + 4096 ≤ g1.flash.addr_recv := hA
      have hp0 : padOf false = 0 := rfl
      unfold u8
      omega
    · show u8 (g1.buf.used + 1) ≤ 2
      unfold u8
      omega
    · intro hx
      obtain ⟨h5a, h5b⟩ := hE hx
      refine ⟨?_, h5b⟩
      show 1 ≤ u8 (g1.buf.used + 1)
      unfold u8
      omega
  | tick env hr ih => exact tick_inv3 _ env _ ih

/-- C3 amended: the cursor ordering `addr_prog ≤ addr_recv ≤ addr_end` holds
at every observable point of the restricted traces (full 4096-byte DNLOADs
that respect the bound, interface changes only while quiescent); after a
DNLOAD rejected for exceeding the bound it does not hold — the incremented
`addr_recv` is retained, as the counterexample shows. -/
theorem c3_cursor_ordering (g : DfuSt) (p : Bool) (h : Reach3 g p) :
    g.flash.addr_prog ≤ g.flash.addr_recv ∧
    g.flash.addr_recv ≤ g.flash.addr_end := by
  obtain ⟨hA, hB, -, -, -⟩ := reach3_inv3 h
  exact ⟨by omega, hB⟩

/-- Witness for C3 at the initial state. -/
theorem c3_cursor_ordering_witness :
    dfuInit.flash.addr_prog ≤ dfuInit.flash.addr_recv ∧
    dfuInit.flash.addr_recv ≤ dfuInit.flash.addr_end :=
  c3_cursor_ordering dfuInit false Reach3.init

end HadDfu
